import Mathlib

/-!
# The `Dropdown` widget of `script.js`

A shallow embedding of the accessible dropdown-menu widget (`script.js`, lines 316-481)
and of the `toggleNavigation` helper (lines 240-244).

* DOM elements are identified by natural numbers.  The part of an element the widget reads
  or writes is its `aria-expanded` attribute and its `classList`.
* A `Page` is the live document: the element store, the structural queries the widget
  performs (`querySelectorAll("[role='menuitem']")`, `Node.contains`, `nextElementSibling`,
  `querySelectorAll(".dropdown-toggle")`), the element that last received `focus()`, and the
  log of the calls of `element.click()`.
* A `Window` is the environment of one call: the viewport size, `getBoundingClientRect` as
  a function of the current page, and the sum of two numbers as the script computes it.
  Numbers are doubles; a finite double is a rational, and the rounding of the double
  addition is not fixed by the model: `Window.add` is a parameter of every theorem.
* Methods that mutate the DOM are functions `Page → Page`; methods that index the item array
  return `Option`, where `none` stands for the `TypeError` of calling `.focus()` on
  `undefined`.
-/

namespace Script

/-! ## Key codes (lines 80-85) -/

def ENTER : Nat := 13
def ESCAPE : Nat := 27
def SPACE : Nat := 32
def UP : Nat := 38
def DOWN : Nat := 40
def TAB : Nat := 9

/-! ## Data model -/

/-- The observable part of a DOM element: the `aria-expanded` attribute (`none` when the
attribute is absent) and the tokens of its `classList`. -/
structure Element where
  ariaExpanded : Option String
  classList : List String

/-- The live document. -/
structure Page where
  /-- Element store. -/
  elems : Nat → Element
  /-- Result of `el.querySelectorAll("[role='menuitem']")`, in document order. -/
  menuitems : Nat → List Nat
  /-- The relation `a.contains(b)` of the DOM tree. -/
  contains : Nat → Nat → Bool
  /-- The property `el.nextElementSibling`. -/
  nextElementSibling : Nat → Option Nat
  /-- Result of `document.querySelectorAll(".dropdown-toggle")`. -/
  dropdownToggles : List Nat
  /-- The element on which `focus()` was called last. -/
  activeElement : Option Nat
  /-- Targets of the click events dispatched by `element.click()`, oldest first. -/
  syntheticClicks : List Nat

/-- A bounding box as returned by `getBoundingClientRect`; its coordinates are finite
doubles, each of them a rational, in CSS pixels. -/
structure DOMRect where
  left : ℚ
  top : ℚ
  width : ℚ
  height : ℚ

/-- The environment during one call. -/
structure Window where
  innerWidth : ℚ
  innerHeight : ℚ
  getBoundingClientRect : Page → Nat → DOMRect
  /-- The value of `a + b` on two numbers: the addition of IEEE-754 doubles, rounded as the
  engine rounds it.  It need not be the exact sum; a sum that overflows to `Infinity` is
  any rational above every finite double. -/
  add : ℚ → ℚ → ℚ

/-- The string a boolean is converted to by `setAttribute`. -/
def jsString (b : Bool) : String := if b then "true" else "false"

/-- The call `el.setAttribute("aria-expanded", value)`. -/
def Page.setAriaExpanded (p : Page) (el : Nat) (value : Bool) : Page :=
  { p with elems := fun x =>
      if x = el then { p.elems x with ariaExpanded := some (jsString value) } else p.elems x }

/-- The call `el.getAttribute("aria-expanded")`. -/
def Page.getAriaExpanded (p : Page) (el : Nat) : Option String := (p.elems el).ariaExpanded

/-- The call `el.classList.add(token)`: a token already present is not added again. -/
def Page.classListAdd (p : Page) (el : Nat) (token : String) : Page :=
  { p with elems := fun x =>
      if x = el then
        { p.elems x with
          classList := if token ∈ (p.elems x).classList then (p.elems x).classList
                       else (p.elems x).classList ++ [token] }
      else p.elems x }

/-- The call `el.classList.remove(tokens...)`. -/
def Page.classListRemove (p : Page) (el : Nat) (tokens : List String) : Page :=
  { p with elems := fun x =>
      if x = el then
        { p.elems x with classList := (p.elems x).classList.filter fun c => decide (c ∉ tokens) }
      else p.elems x }

/-- The call `el.classList.contains(token)`. -/
def Page.classListContains (p : Page) (el : Nat) (token : String) : Bool :=
  decide (token ∈ (p.elems el).classList)

/-- The call `el.focus()`. -/
def Page.focus (p : Page) (el : Nat) : Page := { p with activeElement := some el }

/-- The call `el.click()` is recorded here.  The listeners the widget registered for the
click run in `dispatchClick`; the listeners of other scripts and the default action of the
element are outside the model. -/
def Page.click (p : Page) (el : Nat) : Page :=
  { p with syntheticClicks := p.syntheticClicks ++ [el] }

/-- The record `this.menuPlacement`; `end_` is the field `end` of the source. -/
structure MenuPlacement where
  top : Bool
  end_ : Bool
deriving DecidableEq

/-- A `Dropdown` instance: its fields are assigned once, in the constructor. -/
structure Dropdown where
  toggle : Nat
  menu : Nat
  menuPlacement : MenuPlacement
deriving DecidableEq

/-- A `keydown` event; `defaultPrevented` becomes true when `preventDefault()` is called. -/
structure KeyboardEvent where
  keyCode : Nat
  shiftKey : Bool
  target : Nat
  defaultPrevented : Bool
deriving DecidableEq

/-- The call `e.preventDefault()`. -/
def KeyboardEvent.preventDefault (e : KeyboardEvent) : KeyboardEvent :=
  { e with defaultPrevented := true }

/-! ## `toggleNavigation` (lines 240-244) -/

def toggleNavigation (toggle menu : Nat) (p : Page) : Page :=
  let isExpanded := decide (p.getAriaExpanded menu = some "true")
  (p.setAriaExpanded menu (!isExpanded)).setAriaExpanded toggle (!isExpanded)

/-! ## `Dropdown` (lines 318-463) -/

namespace Dropdown

/-- The constructor `new Dropdown(toggle, menu)` (lines 318-330) on page `p`.  The three
listeners it registers are the handlers below, run by the transitions `Step`. -/
def new (p : Page) (toggle menu : Nat) : Dropdown :=
  { toggle := toggle
    menu := menu
    menuPlacement :=
      { top := p.classListContains menu "dropdown-menu-top"
        end_ := p.classListContains menu "dropdown-menu-end" } }

/-- The getter `isExpanded` (lines 333-335). -/
def isExpanded (d : Dropdown) (p : Page) : Bool :=
  decide (p.getAriaExpanded d.menu = some "true")

/-- The getter `menuItems` (lines 337-339). -/
def menuItems (d : Dropdown) (p : Page) : List Nat := p.menuitems d.menu

/-- The method `dismiss` (lines 341-346). -/
def dismiss (d : Dropdown) (p : Page) : Page :=
  if !d.isExpanded p then p
  else
    (p.setAriaExpanded d.menu false).classListRemove d.menu
      ["dropdown-menu-end", "dropdown-menu-top"]

/-- The state of `handleOverflow` after its two `classList.add` steps (lines 356-369). -/
def anchorStep (w : Window) (d : Dropdown) (p : Page) : Page :=
  let rect := w.getBoundingClientRect p d.menu
  let right := decide (rect.left < 0) || decide (w.add rect.left rect.width > w.innerWidth)
  let bottom := decide (rect.top < 0) || decide (w.add rect.top rect.height > w.innerHeight)
  let p1 := if right || d.menuPlacement.end_ then p.classListAdd d.menu "dropdown-menu-end" else p
  if bottom || d.menuPlacement.top then p1.classListAdd d.menu "dropdown-menu-top" else p1

/-- The method `handleOverflow` (lines 355-374). -/
def handleOverflow (w : Window) (d : Dropdown) (p : Page) : Page :=
  let p2 := d.anchorStep w p
  if (w.getBoundingClientRect p2 d.menu).top < 0 then
    p2.classListRemove d.menu ["dropdown-menu-top"]
  else p2

/-- The method `open` (lines 348-353). -/
def openMenu (w : Window) (d : Dropdown) (p : Page) : Page :=
  if d.isExpanded p then p
  else d.handleOverflow w (p.setAriaExpanded d.menu true)

/-- The call `items.indexOf(currentItem)`; `none` is `undefined`, which no array of
elements holds. -/
def indexOf (items : List Nat) (currentItem : Option Nat) : Int :=
  match currentItem with
  | none => -1
  | some x => if x ∈ items then (items.indexOf x : Int) else -1

/-- The call `items[index].focus()`; indexing outside the array gives `undefined`, and the
call then throws (`none`). -/
def focusAt (items : List Nat) (index : Int) (p : Page) : Option Page :=
  if index < 0 then none
  else
    match items[index.toNat]? with
    | some item => some (p.focus item)
    | none => none

/-- The method `focusNextMenuItem` (lines 376-383). -/
def focusNextMenuItem (d : Dropdown) (currentItem : Option Nat) (p : Page) : Option Page :=
  if (d.menuItems p).length = 0 then some p
  else
    let currentIndex := indexOf (d.menuItems p) currentItem
    let nextIndex : Int :=
      if currentIndex = ((d.menuItems p).length : Int) - 1 ∨ currentIndex < 0 then 0
      else currentIndex + 1
    focusAt (d.menuItems p) nextIndex p

/-- The method `focusPreviousMenuItem` (lines 385-392). -/
def focusPreviousMenuItem (d : Dropdown) (currentItem : Option Nat) (p : Page) : Option Page :=
  if (d.menuItems p).length = 0 then some p
  else
    let currentIndex := indexOf (d.menuItems p) currentItem
    let previousIndex : Int :=
      if currentIndex ≤ 0 then ((d.menuItems p).length : Int) - 1 else currentIndex - 1
    focusAt (d.menuItems p) previousIndex p

/-- The method `clickHandler` (lines 394-400). -/
def clickHandler (w : Window) (d : Dropdown) (p : Page) : Page :=
  if d.isExpanded p then d.dismiss p else d.openMenu w p

/-- The method `toggleKeyHandler` (lines 402-421). -/
def toggleKeyHandler (w : Window) (d : Dropdown) (e : KeyboardEvent) (p : Page) :
    Option (KeyboardEvent × Page) :=
  if e.keyCode = ENTER ∨ e.keyCode = SPACE ∨ e.keyCode = DOWN then
    (d.focusNextMenuItem none (d.openMenu w p)).map fun q => (e.preventDefault, q)
  else if e.keyCode = UP then
    (d.focusPreviousMenuItem none (d.openMenu w p)).map fun q => (e.preventDefault, q)
  else if e.keyCode = ESCAPE then
    some (e, (d.dismiss p).focus d.toggle)
  else some (e, p)

end Dropdown

/-! ## Registration and the page-wide click listener (lines 465-481) -/

/-- The registration loop (lines 465-473): the array `dropdowns` it builds on page `p`. -/
def registerDropdowns (p : Page) : List Dropdown :=
  p.dropdownToggles.filterMap fun toggle =>
    match p.nextElementSibling toggle with
    | some menu =>
        if p.classListContains menu "dropdown-menu" then some (Dropdown.new p toggle menu)
        else none
    | none => none

/-- The listener of `document` for `click` (lines 475-481), for the event target `target`. -/
def documentClick (dropdowns : List Dropdown) (target : Nat) (p : Page) : Page :=
  dropdowns.foldl
    (fun q dropdown => if !(q.contains dropdown.toggle target) then dropdown.dismiss q else q) p

/-- The dispatch of a click event at `target`, as far as the widget listens to it: the
`click` listeners of the toggles that contain the target, from the innermost toggle
outwards, then the listener of `document`.  The array `dropdowns` is in document order, in
which a toggle precedes the toggles inside it. -/
def dispatchClick (w : Window) (dropdowns : List Dropdown) (target : Nat) (p : Page) : Page :=
  documentClick dropdowns target
    (dropdowns.foldr
      (fun dropdown q =>
        if q.contains dropdown.toggle target then dropdown.clickHandler w q else q) p)

/-- The method `menuKeyHandler` (lines 423-462).  The call `currentElement.click()` of line
459 dispatches the click before it returns: `dropdowns` is the array the listener of
`document` reads, `w` the layout during the dispatch. -/
def Dropdown.menuKeyHandler (w : Window) (dropdowns : List Dropdown) (d : Dropdown)
    (e : KeyboardEvent) (p : Page) : Option (KeyboardEvent × Page) :=
  let firstItem := (d.menuItems p)[0]?
  let lastItem := if (d.menuItems p).length = 0 then none
                  else (d.menuItems p)[(d.menuItems p).length - 1]?
  let currentElement := e.target
  if e.keyCode = ESCAPE then
    some (e, (d.dismiss p).focus d.toggle)
  else if e.keyCode = DOWN then
    (d.focusNextMenuItem (some currentElement) p).map fun q => (e.preventDefault, q)
  else if e.keyCode = UP then
    (d.focusPreviousMenuItem (some currentElement) p).map fun q => (e.preventDefault, q)
  else if e.keyCode = TAB then
    if e.shiftKey then
      if some currentElement = firstItem then some (e, d.dismiss p)
      else (d.focusPreviousMenuItem (some currentElement) p).map fun q => (e.preventDefault, q)
    else if some currentElement = lastItem then some (e, d.dismiss p)
    else (d.focusNextMenuItem (some currentElement) p).map fun q => (e.preventDefault, q)
  else if e.keyCode = ENTER ∨ e.keyCode = SPACE then
    some (e.preventDefault, dispatchClick w dropdowns currentElement (p.click currentElement))
  else some (e, p)

/-- One transition of the widget: a method call or a handler run on a registered dropdown,
or the page-wide click listener. -/
inductive Step (dropdowns : List Dropdown) : Page → Page → Prop
  | openMenu (w : Window) (d : Dropdown) (p : Page) :
      d ∈ dropdowns → Step dropdowns p (d.openMenu w p)
  | dismiss (d : Dropdown) (p : Page) :
      d ∈ dropdowns → Step dropdowns p (d.dismiss p)
  | clickHandler (w : Window) (d : Dropdown) (p : Page) :
      d ∈ dropdowns → Step dropdowns p (d.clickHandler w p)
  | toggleKeyHandler (w : Window) (d : Dropdown) (e e2 : KeyboardEvent) (p q : Page) :
      d ∈ dropdowns → d.toggleKeyHandler w e p = some (e2, q) → Step dropdowns p q
  | menuKeyHandler (w : Window) (d : Dropdown) (e e2 : KeyboardEvent) (p q : Page) :
      d ∈ dropdowns → d.menuKeyHandler w dropdowns e p = some (e2, q) → Step dropdowns p q
  | documentClick (target : Nat) (p : Page) :
      Step dropdowns p (documentClick dropdowns target p)

/-- The pages reachable from the page `p0` on which the dropdowns were constructed. -/
inductive Reachable (dropdowns : List Dropdown) (p0 : Page) : Page → Prop
  | init : Reachable dropdowns p0 p0
  | step (p q : Page) : Reachable dropdowns p0 p → Step dropdowns p q → Reachable dropdowns p0 q

/-! ## The measurements of one `open` -/

/-- The box `handleOverflow` measures first (line 356) when `open` runs on a page `p` whose
menu is not expanded. -/
def Dropdown.measuredRect (w : Window) (d : Dropdown) (p : Page) : DOMRect :=
  w.getBoundingClientRect (p.setAriaExpanded d.menu true) d.menu

/-- The box `handleOverflow` measures again after its anchor steps (line 371) when `open`
runs on a page `p` whose menu is not expanded. -/
def Dropdown.remeasuredRect (w : Window) (d : Dropdown) (p : Page) : DOMRect :=
  w.getBoundingClientRect (d.anchorStep w (p.setAriaExpanded d.menu true)) d.menu

/-- The invariant behind the trailing-edge placement: a menu that is not expanded carries
`dropdown-menu-end` only if it carried it on the page `p0`. -/
def EndClassStatic (p0 p : Page) : Prop :=
  ∀ m : Nat, p.getAriaExpanded m ≠ some "true" →
    "dropdown-menu-end" ∈ (p.elems m).classList →
    "dropdown-menu-end" ∈ (p0.elems m).classList

/-! ## A concrete page

Two dropdowns: toggle `0` with menu `1` (items `10, 11, 12`, not expanded), toggle `2`
with menu `3` (items `13, 14, 15`, expanded).  Every node contains itself only. -/

def demoPage : Page :=
  { elems := fun x =>
      if x = 1 then { ariaExpanded := some "false", classList := ["dropdown-menu"] }
      else if x = 3 then
        { ariaExpanded := some "true", classList := ["dropdown-menu", "dropdown-menu-end"] }
      else if x = 0 then { ariaExpanded := some "false", classList := ["dropdown-toggle"] }
      else if x = 2 then { ariaExpanded := none, classList := ["dropdown-toggle"] }
      else { ariaExpanded := none, classList := [] }
    menuitems := fun x => if x = 1 then [10, 11, 12] else if x = 3 then [13, 14, 15] else []
    contains := fun a b => a == b
    nextElementSibling := fun x => if x = 0 then some 1 else if x = 2 then some 3 else none
    dropdownToggles := [0, 2]
    activeElement := none
    syntheticClicks := [] }

/-- A layout in which every box lies inside an 800 by 600 viewport.  The boxes have small
integer coordinates, whose double sum is the exact sum. -/
def demoWindow : Window :=
  { innerWidth := 800
    innerHeight := 600
    getBoundingClientRect := fun _ _ => { left := 10, top := 20, width := 100, height := 50 }
    add := fun a b => a + b }

/-- A low viewport: a box anchored below the toggle ends under the bottom edge, and the
same box anchored on top starts above the top edge.  The boxes have small integer
coordinates, whose double sum is the exact sum. -/
def demoLowWindow : Window :=
  { innerWidth := 800
    innerHeight := 60
    getBoundingClientRect := fun q el =>
      if q.classListContains el "dropdown-menu-top" then
        { left := 10, top := -30, width := 100, height := 50 }
      else { left := 10, top := 20, width := 100, height := 50 }
    add := fun a b => a + b }

/-- A viewport 800 wide and a box that starts `2^-60` right of the left edge and is 800
wide.  The exact sum of `2^-60` and `800` is not a double: the double sum is `800`. -/
def demoRoundingWindow : Window :=
  { innerWidth := 800
    innerHeight := 600
    getBoundingClientRect := fun _ _ =>
      { left := 1 / 2 ^ 60, top := 20, width := 800, height := 50 }
    add := fun a b => if a = 1 / 2 ^ 60 ∧ b = 800 then 800 else a + b }

def demoDropdown : Dropdown := Dropdown.new demoPage 0 1

def demoDropdown2 : Dropdown := Dropdown.new demoPage 2 3

/-- A dropdown on the demo page whose menu, element `5`, holds no menu item. -/
def demoEmptyDropdown : Dropdown := Dropdown.new demoPage 4 5

/-! ## Lemmas on the item array -/

theorem Dropdown.indexOf_undefined (items : List Nat) : Dropdown.indexOf items none = -1 := rfl

theorem Dropdown.indexOf_absent (items : List Nat) (x : Nat) (h : x ∉ items) :
    Dropdown.indexOf items (some x) = -1 := by
  simp [Dropdown.indexOf, h]

theorem Dropdown.indexOf_item (items : List Nat) (hnd : items.Nodup) (i : Nat)
    (hi : i < items.length) : Dropdown.indexOf items (some items[i]) = (i : Int) := by
  have hmem : items[i] ∈ items := List.getElem_mem hi
  simp [Dropdown.indexOf, hmem, List.indexOf_getElem hnd i hi]

theorem Dropdown.focusAt_item (items : List Nat) (i : Nat) (hi : i < items.length) (p : Page) :
    Dropdown.focusAt items (i : Int) p = some (p.focus items[i]) := by
  have h0 : ¬ ((i : Int) < 0) := by omega
  simp [Dropdown.focusAt, h0, List.getElem?_eq_getElem hi]

theorem Dropdown.getLast?_eq_item (items : List Nat) (hne : items ≠ []) :
    items.getLast? = some (items.get ⟨items.length - 1, by
      have := List.length_pos.mpr hne; omega⟩) := by
  rw [List.getLast?_eq_getElem?]
  have : items.length - 1 < items.length := by
    have := List.length_pos.mpr hne; omega
  simp [List.getElem?_eq_getElem this]

theorem Dropdown.head_eq_item (items : List Nat) (hne : items ≠ []) :
    items.head hne = items.get ⟨0, List.length_pos.mpr hne⟩ := by
  cases items with
  | nil => exact absurd rfl hne
  | cons a t => rfl

/-- The item at position `i` of a non-empty array of distinct items is followed by the item
at position `(i + 1) % n`. -/
theorem Dropdown.focusNextMenuItem_item (d : Dropdown) (p : Page) (hnd : (d.menuItems p).Nodup)
    (i : Nat) (hi : i < (d.menuItems p).length) :
    d.focusNextMenuItem (some (d.menuItems p)[i]) p =
      some (p.focus ((d.menuItems p).get
        ⟨(i + 1) % (d.menuItems p).length, Nat.mod_lt _ (Nat.lt_of_le_of_lt (Nat.zero_le i) hi)⟩)) := by
  have hlen : (d.menuItems p).length ≠ 0 := by omega
  unfold Dropdown.focusNextMenuItem
  rw [if_neg hlen, Dropdown.indexOf_item _ hnd i hi]
  by_cases hlast : i = (d.menuItems p).length - 1
  · have hc : ((i : Int) = ((d.menuItems p).length : Int) - 1 ∨ (i : Int) < 0) := by
      left; omega
    have hmod : (i + 1) % (d.menuItems p).length = 0 := by
      have : i + 1 = (d.menuItems p).length := by omega
      rw [this, Nat.mod_self]
    simp only [hc, if_true]
    have h0 : 0 < (d.menuItems p).length := by omega
    have := Dropdown.focusAt_item (d.menuItems p) 0 h0 p
    simp only [Nat.cast_zero] at this
    rw [this]
    simp [hmod]
  · have hc : ¬ ((i : Int) = ((d.menuItems p).length : Int) - 1 ∨ (i : Int) < 0) := by
      omega
    have hlt : i + 1 < (d.menuItems p).length := by omega
    have hmod : (i + 1) % (d.menuItems p).length = i + 1 := Nat.mod_eq_of_lt hlt
    simp only [hc, if_false]
    have := Dropdown.focusAt_item (d.menuItems p) (i + 1) hlt p
    simp only [Nat.cast_add, Nat.cast_one] at this
    rw [this]
    simp [hmod]

/-- With no current item, or one that is not in the array, the first item is focused. -/
theorem Dropdown.focusNextMenuItem_first (d : Dropdown) (p : Page) (currentItem : Option Nat)
    (hne : d.menuItems p ≠ [])
    (h : currentItem = none ∨ ∀ x, currentItem = some x → x ∉ d.menuItems p) :
    d.focusNextMenuItem currentItem p = some (p.focus ((d.menuItems p).head hne)) := by
  have h0 : 0 < (d.menuItems p).length := List.length_pos.mpr hne
  have hlen : (d.menuItems p).length ≠ 0 := by omega
  have hidx : Dropdown.indexOf (d.menuItems p) currentItem = -1 := by
    rcases h with h | h
    · rw [h]; rfl
    · cases currentItem with
      | none => rfl
      | some x => exact Dropdown.indexOf_absent _ x (h x rfl)
  unfold Dropdown.focusNextMenuItem
  rw [if_neg hlen, hidx]
  have hc : ((-1 : Int) = ((d.menuItems p).length : Int) - 1 ∨ (-1 : Int) < 0) := by
    right; omega
  simp only [hc, if_true]
  have := Dropdown.focusAt_item (d.menuItems p) 0 h0 p
  simp only [Nat.cast_zero] at this
  rw [this, Dropdown.head_eq_item]
  rfl

/-- The item at position `i` of a non-empty array of distinct items is preceded by the item
at position `i - 1`, and the first item by the last one. -/
theorem Dropdown.focusPreviousMenuItem_item (d : Dropdown) (p : Page)
    (hnd : (d.menuItems p).Nodup) (i : Nat) (hi : i < (d.menuItems p).length) :
    d.focusPreviousMenuItem (some (d.menuItems p)[i]) p =
      some (p.focus ((d.menuItems p).get
        ⟨if i = 0 then (d.menuItems p).length - 1 else i - 1, by split <;> omega⟩)) := by
  have hlen : (d.menuItems p).length ≠ 0 := by omega
  unfold Dropdown.focusPreviousMenuItem
  rw [if_neg hlen, Dropdown.indexOf_item _ hnd i hi]
  by_cases hfirst : i = 0
  · have hc : ((i : Int) ≤ 0) := by omega
    have hlt : (d.menuItems p).length - 1 < (d.menuItems p).length := by omega
    have hcast : (((d.menuItems p).length - 1 : Nat) : Int) = ((d.menuItems p).length : Int) - 1 := by
      omega
    simp only [hc, if_true]
    have := Dropdown.focusAt_item (d.menuItems p) ((d.menuItems p).length - 1) hlt p
    rw [hcast] at this
    rw [this]
    simp [hfirst]
  · have hc : ¬ ((i : Int) ≤ 0) := by omega
    have hlt : i - 1 < (d.menuItems p).length := by omega
    have hcast : ((i - 1 : Nat) : Int) = (i : Int) - 1 := by omega
    simp only [hc, if_false]
    have := Dropdown.focusAt_item (d.menuItems p) (i - 1) hlt p
    rw [hcast] at this
    rw [this]
    simp [hfirst]

/-- With no current item, or one that is not in the array, the last item is focused. -/
theorem Dropdown.focusPreviousMenuItem_last (d : Dropdown) (p : Page)
    (currentItem : Option Nat) (hne : d.menuItems p ≠ [])
    (h : currentItem = none ∨ ∀ x, currentItem = some x → x ∉ d.menuItems p) :
    d.focusPreviousMenuItem currentItem p = some (p.focus ((d.menuItems p).getLast hne)) := by
  have h0 : 0 < (d.menuItems p).length := List.length_pos.mpr hne
  have hlen : (d.menuItems p).length ≠ 0 := by omega
  have hidx : Dropdown.indexOf (d.menuItems p) currentItem = -1 := by
    rcases h with h | h
    · rw [h]; rfl
    · cases currentItem with
      | none => rfl
      | some x => exact Dropdown.indexOf_absent _ x (h x rfl)
  unfold Dropdown.focusPreviousMenuItem
  rw [if_neg hlen, hidx]
  have hc : ((-1 : Int) ≤ 0) := by omega
  have hlt : (d.menuItems p).length - 1 < (d.menuItems p).length := by omega
  have hcast : (((d.menuItems p).length - 1 : Nat) : Int) = ((d.menuItems p).length : Int) - 1 := by
    omega
  simp only [hc, if_true]
  have := Dropdown.focusAt_item (d.menuItems p) ((d.menuItems p).length - 1) hlt p
  rw [hcast] at this
  rw [this, List.getLast_eq_getElem]

/-! ## The navigation methods and the key handlers always return -/

theorem Dropdown.indexOf_bounds (items : List Nat) (c : Option Nat) :
    -1 ≤ Dropdown.indexOf items c ∧ Dropdown.indexOf items c < (items.length : Int) := by
  cases c with
  | none => simp only [Dropdown.indexOf]; omega
  | some x =>
    by_cases hx : x ∈ items
    · have := List.indexOf_lt_length.mpr hx
      simp only [Dropdown.indexOf, hx, if_true]
      omega
    · simp only [Dropdown.indexOf, hx, if_false]
      omega

theorem Dropdown.focusAt_returns (items : List Nat) (index : Int) (p : Page)
    (h0 : 0 ≤ index) (h1 : index < (items.length : Int)) :
    ∃ item ∈ items, Dropdown.focusAt items index p = some (p.focus item) := by
  have hlt : index.toNat < items.length := by omega
  have hneg : ¬ index < 0 := by omega
  refine ⟨items[index.toNat], List.getElem_mem hlt, ?_⟩
  simp [Dropdown.focusAt, hneg, List.getElem?_eq_getElem hlt]

/-- The method `focusNextMenuItem` never indexes outside the item array. -/
theorem Dropdown.focusNextMenuItem_returns (d : Dropdown) (c : Option Nat) (p : Page) :
    d.focusNextMenuItem c p = some p ∨
      ∃ item ∈ d.menuItems p, d.focusNextMenuItem c p = some (p.focus item) := by
  unfold Dropdown.focusNextMenuItem
  by_cases hlen : (d.menuItems p).length = 0
  · left; rw [if_pos hlen]
  · right
    rw [if_neg hlen]
    have hb := Dropdown.indexOf_bounds (d.menuItems p) c
    apply Dropdown.focusAt_returns
    · split <;> omega
    · split <;> omega

/-- The method `focusPreviousMenuItem` never indexes outside the item array. -/
theorem Dropdown.focusPreviousMenuItem_returns (d : Dropdown) (c : Option Nat) (p : Page) :
    d.focusPreviousMenuItem c p = some p ∨
      ∃ item ∈ d.menuItems p, d.focusPreviousMenuItem c p = some (p.focus item) := by
  unfold Dropdown.focusPreviousMenuItem
  by_cases hlen : (d.menuItems p).length = 0
  · left; rw [if_pos hlen]
  · right
    rw [if_neg hlen]
    have hb := Dropdown.indexOf_bounds (d.menuItems p) c
    apply Dropdown.focusAt_returns
    · split <;> omega
    · split <;> omega

theorem Dropdown.focusNextMenuItem_isSome (d : Dropdown) (c : Option Nat) (p : Page) :
    (d.focusNextMenuItem c p).isSome = true := by
  rcases Dropdown.focusNextMenuItem_returns d c p with h | ⟨item, -, h⟩ <;> rw [h] <;> rfl

theorem Dropdown.focusPreviousMenuItem_isSome (d : Dropdown) (c : Option Nat) (p : Page) :
    (d.focusPreviousMenuItem c p).isSome = true := by
  rcases Dropdown.focusPreviousMenuItem_returns d c p with h | ⟨item, -, h⟩ <;> rw [h] <;> rfl

/-- The handler `toggleKeyHandler` runs to its end on every event and page. -/
theorem Dropdown.toggleKeyHandler_isSome (w : Window) (d : Dropdown) (e : KeyboardEvent)
    (p : Page) : (d.toggleKeyHandler w e p).isSome = true := by
  unfold Dropdown.toggleKeyHandler
  split_ifs <;>
    simp [Option.isSome_map', Dropdown.focusNextMenuItem_isSome,
      Dropdown.focusPreviousMenuItem_isSome]

/-- The handler `menuKeyHandler` runs to its end on every event and page. -/
theorem Dropdown.menuKeyHandler_isSome (w : Window) (dropdowns : List Dropdown)
    (d : Dropdown) (e : KeyboardEvent) (p : Page) :
    (d.menuKeyHandler w dropdowns e p).isSome = true := by
  unfold Dropdown.menuKeyHandler
  simp only
  split_ifs <;>
    simp [Option.isSome_map', Dropdown.focusNextMenuItem_isSome,
      Dropdown.focusPreviousMenuItem_isSome]

/-! ## Lemmas on the element store -/

theorem Page.getAriaExpanded_setAriaExpanded (p : Page) (el x : Nat) (v : Bool) :
    (p.setAriaExpanded el v).getAriaExpanded x =
      if x = el then some (jsString v) else p.getAriaExpanded x := by
  unfold Page.setAriaExpanded Page.getAriaExpanded
  by_cases h : x = el <;> simp [h]

theorem Page.classList_setAriaExpanded (p : Page) (el x : Nat) (v : Bool) :
    ((p.setAriaExpanded el v).elems x).classList = (p.elems x).classList := by
  unfold Page.setAriaExpanded
  by_cases h : x = el <;> simp [h]

theorem Page.getAriaExpanded_classListAdd (p : Page) (el x : Nat) (t : String) :
    (p.classListAdd el t).getAriaExpanded x = p.getAriaExpanded x := by
  unfold Page.classListAdd Page.getAriaExpanded
  by_cases h : x = el <;> simp [h]

theorem Page.getAriaExpanded_classListRemove (p : Page) (el x : Nat) (ts : List String) :
    (p.classListRemove el ts).getAriaExpanded x = p.getAriaExpanded x := by
  unfold Page.classListRemove Page.getAriaExpanded
  by_cases h : x = el <;> simp [h]

theorem Page.mem_classList_classListAdd (p : Page) (el x : Nat) (t c : String) :
    c ∈ ((p.classListAdd el t).elems x).classList ↔
      c ∈ (p.elems x).classList ∨ (x = el ∧ c = t) := by
  unfold Page.classListAdd
  by_cases h : x = el
  · by_cases ht : t ∈ (p.elems x).classList
    · simp only [h, if_true] at ht ⊢
      simp only [ht, if_true]
      constructor
      · intro hc; exact Or.inl hc
      · rintro (hc | ⟨_, hc⟩)
        · exact hc
        · rw [hc]; exact ht
    · simp only [h, if_true] at ht ⊢
      simp only [ht, if_false, List.mem_append, List.mem_singleton, true_and]
  · simp [h]

theorem Page.mem_classList_classListRemove (p : Page) (el x : Nat) (ts : List String)
    (c : String) :
    c ∈ ((p.classListRemove el ts).elems x).classList ↔
      c ∈ (p.elems x).classList ∧ ¬ (x = el ∧ c ∈ ts) := by
  unfold Page.classListRemove
  by_cases h : x = el
  · simp [h, List.mem_filter]
  · simp [h]

theorem Page.elems_setAriaExpanded_of_ne (p : Page) (el x : Nat) (v : Bool) (h : x ≠ el) :
    (p.setAriaExpanded el v).elems x = p.elems x := by
  simp [Page.setAriaExpanded, h]

theorem Page.elems_classListAdd_of_ne (p : Page) (el x : Nat) (t : String) (h : x ≠ el) :
    (p.classListAdd el t).elems x = p.elems x := by
  simp [Page.classListAdd, h]

theorem Page.elems_classListRemove_of_ne (p : Page) (el x : Nat) (ts : List String)
    (h : x ≠ el) : (p.classListRemove el ts).elems x = p.elems x := by
  simp [Page.classListRemove, h]

/-! ## Lemmas on `dismiss`, `handleOverflow` and `open` -/

theorem Dropdown.dismiss_of_not_expanded (d : Dropdown) (p : Page)
    (h : d.isExpanded p = false) : d.dismiss p = p := by
  simp [Dropdown.dismiss, h]

theorem Dropdown.dismiss_of_expanded (d : Dropdown) (p : Page) (h : d.isExpanded p = true) :
    d.dismiss p = (p.setAriaExpanded d.menu false).classListRemove d.menu
      ["dropdown-menu-end", "dropdown-menu-top"] := by
  simp [Dropdown.dismiss, h]

theorem Dropdown.openMenu_of_expanded (w : Window) (d : Dropdown) (p : Page)
    (h : d.isExpanded p = true) : d.openMenu w p = p := by
  simp [Dropdown.openMenu, h]

theorem Dropdown.openMenu_of_not_expanded (w : Window) (d : Dropdown) (p : Page)
    (h : d.isExpanded p = false) :
    d.openMenu w p = d.handleOverflow w (p.setAriaExpanded d.menu true) := by
  simp [Dropdown.openMenu, h]

theorem Dropdown.getAriaExpanded_dismiss (d : Dropdown) (p : Page) (x : Nat) :
    (d.dismiss p).getAriaExpanded x =
      if x = d.menu ∧ d.isExpanded p = true then some "false" else p.getAriaExpanded x := by
  cases h : d.isExpanded p
  · simp [Dropdown.dismiss_of_not_expanded d p h]
  · rw [Dropdown.dismiss_of_expanded d p h, Page.getAriaExpanded_classListRemove,
      Page.getAriaExpanded_setAriaExpanded]
    by_cases hx : x = d.menu <;> simp [hx, jsString]

theorem Dropdown.getAriaExpanded_anchorStep (w : Window) (d : Dropdown) (p : Page) (x : Nat) :
    (d.anchorStep w p).getAriaExpanded x = p.getAriaExpanded x := by
  unfold Dropdown.anchorStep
  simp only
  split <;> split <;> simp [Page.getAriaExpanded_classListAdd]

theorem Dropdown.getAriaExpanded_handleOverflow (w : Window) (d : Dropdown) (p : Page)
    (x : Nat) : (d.handleOverflow w p).getAriaExpanded x = p.getAriaExpanded x := by
  unfold Dropdown.handleOverflow
  simp only
  split <;>
    simp [Page.getAriaExpanded_classListRemove, Dropdown.getAriaExpanded_anchorStep]

theorem Dropdown.getAriaExpanded_openMenu (w : Window) (d : Dropdown) (p : Page) (x : Nat) :
    (d.openMenu w p).getAriaExpanded x =
      if x = d.menu ∧ d.isExpanded p = false then some "true" else p.getAriaExpanded x := by
  cases h : d.isExpanded p
  · rw [Dropdown.openMenu_of_not_expanded w d p h, Dropdown.getAriaExpanded_handleOverflow,
      Page.getAriaExpanded_setAriaExpanded]
    by_cases hx : x = d.menu <;> simp [hx, jsString]
  · simp [Dropdown.openMenu_of_expanded w d p h]

theorem Dropdown.isExpanded_dismiss (d : Dropdown) (p : Page) :
    d.isExpanded (d.dismiss p) = false := by
  unfold Dropdown.isExpanded
  rw [Dropdown.getAriaExpanded_dismiss]
  cases h : d.isExpanded p
  · simpa [Dropdown.isExpanded] using h
  · simp

theorem Dropdown.isExpanded_openMenu (w : Window) (d : Dropdown) (p : Page) :
    d.isExpanded (d.openMenu w p) = true := by
  unfold Dropdown.isExpanded
  rw [Dropdown.getAriaExpanded_openMenu]
  cases h : d.isExpanded p
  · simp
  · simpa [Dropdown.isExpanded] using h

/-- A dismissal never expands a menu, whichever dropdown it is called on. -/
theorem Dropdown.isExpanded_dismiss_of_not_expanded (d d2 : Dropdown) (p : Page)
    (h : d.isExpanded p = false) : d.isExpanded (d2.dismiss p) = false := by
  unfold Dropdown.isExpanded at h ⊢
  rw [Dropdown.getAriaExpanded_dismiss]
  by_cases hc : d.menu = d2.menu ∧ d2.isExpanded p = true
  · simp [hc]
  · rw [if_neg hc]; exact h

theorem Dropdown.elems_dismiss_of_ne (d : Dropdown) (p : Page) (x : Nat) (h : x ≠ d.menu) :
    (d.dismiss p).elems x = p.elems x := by
  cases he : d.isExpanded p
  · rw [Dropdown.dismiss_of_not_expanded d p he]
  · rw [Dropdown.dismiss_of_expanded d p he, Page.elems_classListRemove_of_ne _ _ _ _ h,
      Page.elems_setAriaExpanded_of_ne _ _ _ _ h]

theorem Dropdown.elems_anchorStep_of_ne (w : Window) (d : Dropdown) (p : Page) (x : Nat)
    (h : x ≠ d.menu) : (d.anchorStep w p).elems x = p.elems x := by
  unfold Dropdown.anchorStep
  simp only
  split <;> split <;> simp [Page.elems_classListAdd_of_ne _ _ _ _ h]

theorem Dropdown.elems_handleOverflow_of_ne (w : Window) (d : Dropdown) (p : Page) (x : Nat)
    (h : x ≠ d.menu) : (d.handleOverflow w p).elems x = p.elems x := by
  unfold Dropdown.handleOverflow
  simp only
  split <;>
    simp [Page.elems_classListRemove_of_ne _ _ _ _ h, Dropdown.elems_anchorStep_of_ne w d p x h]

theorem Dropdown.elems_openMenu_of_ne (w : Window) (d : Dropdown) (p : Page) (x : Nat)
    (h : x ≠ d.menu) : (d.openMenu w p).elems x = p.elems x := by
  cases he : d.isExpanded p
  · rw [Dropdown.openMenu_of_not_expanded w d p he, Dropdown.elems_handleOverflow_of_ne w d _ x h,
      Page.elems_setAriaExpanded_of_ne _ _ _ _ h]
  · rw [Dropdown.openMenu_of_expanded w d p he]

/-! ## Lemmas on the key handlers -/

theorem Dropdown.elems_focusAt (items : List Nat) (index : Int) (p q : Page)
    (h : Dropdown.focusAt items index p = some q) : q.elems = p.elems := by
  unfold Dropdown.focusAt at h
  split at h
  · cases h
  · split at h
    · cases h; rfl
    · cases h

theorem Dropdown.elems_focusNextMenuItem (d : Dropdown) (c : Option Nat) (p q : Page)
    (h : d.focusNextMenuItem c p = some q) : q.elems = p.elems := by
  unfold Dropdown.focusNextMenuItem at h
  split at h
  · cases h; rfl
  · exact Dropdown.elems_focusAt _ _ p q h

theorem Dropdown.elems_focusPreviousMenuItem (d : Dropdown) (c : Option Nat) (p q : Page)
    (h : d.focusPreviousMenuItem c p = some q) : q.elems = p.elems := by
  unfold Dropdown.focusPreviousMenuItem at h
  split at h
  · cases h; rfl
  · exact Dropdown.elems_focusAt _ _ p q h

/-- A run of `toggleKeyHandler` changes the element store as `open` does, as `dismiss`
does, or not at all. -/
theorem Dropdown.toggleKeyHandler_elems (w : Window) (d : Dropdown) (e e2 : KeyboardEvent)
    (p q : Page) (h : d.toggleKeyHandler w e p = some (e2, q)) :
    q.elems = (d.openMenu w p).elems ∨ q.elems = (d.dismiss p).elems ∨ q.elems = p.elems := by
  unfold Dropdown.toggleKeyHandler at h
  split at h
  · simp only [Option.map_eq_some', Prod.mk.injEq] at h
    obtain ⟨r, hr, -, rfl⟩ := h
    exact Or.inl (Dropdown.elems_focusNextMenuItem d none _ _ hr)
  · split at h
    · simp only [Option.map_eq_some', Prod.mk.injEq] at h
      obtain ⟨r, hr, -, rfl⟩ := h
      exact Or.inl (Dropdown.elems_focusPreviousMenuItem d none _ _ hr)
    · split at h
      · simp only [Option.some.injEq, Prod.mk.injEq] at h
        obtain ⟨-, rfl⟩ := h
        exact Or.inr (Or.inl rfl)
      · simp only [Option.some.injEq, Prod.mk.injEq] at h
        obtain ⟨-, rfl⟩ := h
        exact Or.inr (Or.inr rfl)

/-- A run of `menuKeyHandler` changes the element store as `dismiss` does, or not at all,
or it is the dispatch of a click at the target. -/
theorem Dropdown.menuKeyHandler_elems (w : Window) (dropdowns : List Dropdown) (d : Dropdown)
    (e e2 : KeyboardEvent) (p q : Page) (h : d.menuKeyHandler w dropdowns e p = some (e2, q)) :
    q.elems = (d.dismiss p).elems ∨ q.elems = p.elems ∨
      q = dispatchClick w dropdowns e.target (p.click e.target) := by
  unfold Dropdown.menuKeyHandler at h
  simp only at h
  split_ifs at h <;>
    first
    | (simp only [Option.some.injEq, Prod.mk.injEq] at h
       obtain ⟨-, rfl⟩ := h
       first
       | exact Or.inr (Or.inl rfl)
       | exact Or.inr (Or.inr rfl)
       | exact Or.inl rfl)
    | (simp only [Option.map_eq_some', Prod.mk.injEq] at h
       obtain ⟨r, hr, -, rfl⟩ := h
       first
       | exact Or.inr (Or.inl (Dropdown.elems_focusNextMenuItem d _ _ _ hr))
       | exact Or.inr (Or.inl (Dropdown.elems_focusPreviousMenuItem d _ _ _ hr)))

/-! ## Lemmas on the click listener and on transitions -/

theorem documentClick_cons (d : Dropdown) (l : List Dropdown) (target : Nat) (p : Page) :
    documentClick (d :: l) target p =
      documentClick l target (if !(p.contains d.toggle target) then d.dismiss p else p) := rfl

/-- A property of the element store that every `dismiss` keeps is kept by the sweep. -/
theorem documentClick_preserves (P : Page → Prop) (l : List Dropdown) (target : Nat)
    (hdismiss : ∀ d ∈ l, ∀ r, P r → P (d.dismiss r)) :
    ∀ p, P p → P (documentClick l target p) := by
  induction l with
  | nil => intro p hp; exact hp
  | cons d l ih =>
    intro p hp
    rw [documentClick_cons]
    apply ih (fun d2 h2 => hdismiss d2 (List.mem_cons_of_mem _ h2))
    split
    · exact hdismiss d (List.mem_cons_self _ _) p hp
    · exact hp

/-- A property that `open` and `dismiss` of the listed dropdowns keep is kept by their
click listeners. -/
theorem toggleClicks_preserves (w : Window) (P : Page → Prop) (target : Nat) (p : Page)
    (l : List Dropdown)
    (hopen : ∀ d ∈ l, ∀ r, P r → P (d.openMenu w r))
    (hdismiss : ∀ d ∈ l, ∀ r, P r → P (d.dismiss r)) (hp : P p) :
    P (l.foldr
      (fun dropdown q =>
        if q.contains dropdown.toggle target then dropdown.clickHandler w q else q) p) := by
  induction l with
  | nil => exact hp
  | cons d l ih =>
    have hrest := ih (fun d2 h2 => hopen d2 (List.mem_cons_of_mem _ h2))
      (fun d2 h2 => hdismiss d2 (List.mem_cons_of_mem _ h2))
    rw [List.foldr_cons]
    split
    · unfold Dropdown.clickHandler
      split
      · exact hdismiss d (List.mem_cons_self _ _) _ hrest
      · exact hopen d (List.mem_cons_self _ _) _ hrest
    · exact hrest

/-- A property that `open` and `dismiss` of the registered dropdowns keep is kept by the
dispatch of a click. -/
theorem dispatchClick_preserves (w : Window) (P : Page → Prop) (dropdowns : List Dropdown)
    (target : Nat)
    (hopen : ∀ d ∈ dropdowns, ∀ r, P r → P (d.openMenu w r))
    (hdismiss : ∀ d ∈ dropdowns, ∀ r, P r → P (d.dismiss r)) (p : Page) (hp : P p) :
    P (dispatchClick w dropdowns target p) := by
  unfold dispatchClick
  exact documentClick_preserves P dropdowns target hdismiss _
    (toggleClicks_preserves w P target p dropdowns hopen hdismiss hp)

/-- A property of the element store that `open` and `dismiss` of the registered dropdowns
keep is kept by every transition. -/
theorem Step.preserves (dropdowns : List Dropdown) (P : Page → Prop)
    (hext : ∀ p q, q.elems = p.elems → P p → P q)
    (hopen : ∀ w, ∀ d ∈ dropdowns, ∀ r, P r → P (d.openMenu w r))
    (hdismiss : ∀ d ∈ dropdowns, ∀ r, P r → P (d.dismiss r))
    (p q : Page) (hstep : Step dropdowns p q) (hp : P p) : P q := by
  cases hstep with
  | openMenu w d _ hd => exact hopen w d hd p hp
  | dismiss d _ hd => exact hdismiss d hd p hp
  | clickHandler w d _ hd =>
    unfold Dropdown.clickHandler
    split
    · exact hdismiss d hd p hp
    · exact hopen w d hd p hp
  | toggleKeyHandler w d e e2 _ _ hd h =>
    rcases Dropdown.toggleKeyHandler_elems w d e e2 p q h with h1 | h1 | h1
    · exact hext _ _ h1 (hopen w d hd p hp)
    · exact hext _ _ h1 (hdismiss d hd p hp)
    · exact hext _ _ h1 hp
  | menuKeyHandler w d e e2 _ _ hd h =>
    rcases Dropdown.menuKeyHandler_elems w dropdowns d e e2 p q h with h1 | h1 | h1
    · exact hext _ _ h1 (hdismiss d hd p hp)
    · exact hext _ _ h1 hp
    · rw [h1]
      exact dispatchClick_preserves w P dropdowns e.target (hopen w) hdismiss _
        (hext p (p.click e.target) rfl hp)
  | documentClick target _ =>
    exact documentClick_preserves P dropdowns target hdismiss p hp

/-! ## Lemmas on the structure of the document -/

theorem Dropdown.contains_dismiss (d : Dropdown) (p : Page) :
    (d.dismiss p).contains = p.contains := by
  unfold Dropdown.dismiss
  split <;> rfl

theorem Dropdown.contains_anchorStep (w : Window) (d : Dropdown) (p : Page) :
    (d.anchorStep w p).contains = p.contains := by
  unfold Dropdown.anchorStep
  simp only
  split <;> split <;> rfl

theorem Dropdown.contains_openMenu (w : Window) (d : Dropdown) (p : Page) :
    (d.openMenu w p).contains = p.contains := by
  unfold Dropdown.openMenu Dropdown.handleOverflow
  simp only
  split
  · rfl
  · split <;> simp [Page.classListRemove, Dropdown.contains_anchorStep, Page.setAriaExpanded]

theorem Dropdown.contains_clickHandler (w : Window) (d : Dropdown) (p : Page) :
    (d.clickHandler w p).contains = p.contains := by
  unfold Dropdown.clickHandler
  split
  · exact Dropdown.contains_dismiss d p
  · exact Dropdown.contains_openMenu w d p

/-- The sweep never expands a menu. -/
theorem documentClick_keeps_closed (d : Dropdown) (l : List Dropdown) (target : Nat)
    (p : Page) (h : d.isExpanded p = false) :
    d.isExpanded (documentClick l target p) = false :=
  documentClick_preserves (fun r => d.isExpanded r = false) l target
    (fun d2 _ r hr => Dropdown.isExpanded_dismiss_of_not_expanded d d2 r hr) p h

/-- The sweep dismisses every listed dropdown whose toggle does not contain the target. -/
theorem documentClick_dismisses (d : Dropdown) (target : Nat) :
    ∀ (l : List Dropdown) (p : Page), d ∈ l → p.contains d.toggle target = false →
      d.isExpanded (documentClick l target p) = false := by
  intro l
  induction l with
  | nil => intro p hd; cases hd
  | cons d2 l ih =>
    intro p hd hc
    rw [documentClick_cons]
    rcases List.mem_cons.mp hd with rfl | hmem
    · apply documentClick_keeps_closed
      simp only [hc, Bool.not_false, if_true]
      exact Dropdown.isExpanded_dismiss d p
    · apply ih _ hmem
      split
      · rw [Dropdown.contains_dismiss]; exact hc
      · exact hc

/-- The sweep leaves an element as it is when every listed dropdown with that menu has a
toggle that contains the target. -/
theorem documentClick_elems (target x : Nat) :
    ∀ (l : List Dropdown) (p : Page),
      (∀ d ∈ l, d.menu = x → p.contains d.toggle target = true) →
      (documentClick l target p).elems x = p.elems x := by
  intro l
  induction l with
  | nil => intro p _; rfl
  | cons d2 l ih =>
    intro p h
    rw [documentClick_cons]
    by_cases hc : p.contains d2.toggle target = true
    · simp only [hc, Bool.not_true, Bool.false_eq_true, if_false]
      exact ih p (fun d hd => h d (List.mem_cons_of_mem _ hd))
    · have hne : x ≠ d2.menu := by
        intro hx
        exact hc (h d2 (List.mem_cons_self _ _) hx.symm)
      simp only [hc, Bool.not_false, if_true]
      rw [ih (d2.dismiss p) ?_, Dropdown.elems_dismiss_of_ne d2 p x hne]
      intro d hd hm
      rw [Dropdown.contains_dismiss]
      exact h d (List.mem_cons_of_mem _ hd) hm

theorem Dropdown.isExpanded_clickHandler (w : Window) (d : Dropdown) (p : Page) :
    d.isExpanded (d.clickHandler w p) = !d.isExpanded p := by
  unfold Dropdown.clickHandler
  cases h : d.isExpanded p
  · simp [Dropdown.isExpanded_openMenu]
  · simp [Dropdown.isExpanded_dismiss]

/-! ## Lemmas on `Tab` in `menuKeyHandler` -/

theorem Dropdown.firstItem_eq (items : List Nat) (hne : items ≠ []) :
    items[0]? = some (items.head hne) := by
  cases items with
  | nil => exact absurd rfl hne
  | cons a t => simp

theorem Dropdown.lastItem_eq (items : List Nat) (hne : items ≠ []) :
    (if items.length = 0 then none else items[items.length - 1]?) =
      some (items.getLast hne) := by
  have hpos : 0 < items.length := List.length_pos.mpr hne
  have hlen : items.length ≠ 0 := by omega
  have hlt : items.length - 1 < items.length := by omega
  rw [if_neg hlen, List.getElem?_eq_getElem hlt, List.getLast_eq_getElem]

/-- The `TAB` branch of `menuKeyHandler` (lines 441-455) on a non-empty item array. -/
theorem Dropdown.menuKeyHandler_tab (w : Window) (dropdowns : List Dropdown) (d : Dropdown)
    (e : KeyboardEvent) (p : Page) (hkey : e.keyCode = TAB) (hne : d.menuItems p ≠ []) :
    d.menuKeyHandler w dropdowns e p =
      if e.shiftKey = true then
        if e.target = (d.menuItems p).head hne then some (e, d.dismiss p)
        else (d.focusPreviousMenuItem (some e.target) p).map fun q => (e.preventDefault, q)
      else if e.target = (d.menuItems p).getLast hne then some (e, d.dismiss p)
      else (d.focusNextMenuItem (some e.target) p).map fun q => (e.preventDefault, q) := by
  have h1 : ¬ TAB = ESCAPE := by decide
  have h2 : ¬ TAB = DOWN := by decide
  have h3 : ¬ TAB = UP := by decide
  unfold Dropdown.menuKeyHandler
  simp only [hkey, h1, h2, h3, if_false, if_true, Dropdown.firstItem_eq _ hne,
    Dropdown.lastItem_eq _ hne, Option.some.injEq]

theorem Dropdown.isExpanded_focus (d : Dropdown) (p : Page) (x : Nat) :
    d.isExpanded (p.focus x) = d.isExpanded p := rfl

/-- An item that is not the last one of an array of distinct items stands at a position
`i` with `i + 1` inside the array. -/
theorem Dropdown.position_of_ne_getLast (items : List Nat) (hne : items ≠ []) (x : Nat)
    (hx : x ∈ items) (hlast : x ≠ items.getLast hne) :
    ∃ (i : Nat) (hi : i + 1 < items.length), x = items[i] := by
  obtain ⟨i, hi, hget⟩ := List.getElem_of_mem hx
  have hi1 : i + 1 < items.length := by
    by_contra hcon
    have hi2 : i = items.length - 1 := by omega
    apply hlast
    rw [List.getLast_eq_getElem, ← hget]
    simp [hi2]
  exact ⟨i, hi1, hget.symm⟩

/-- An item that is not the first one of an array stands at a position `i + 1`. -/
theorem Dropdown.position_of_ne_head (items : List Nat) (hne : items ≠ []) (x : Nat)
    (hx : x ∈ items) (hfirst : x ≠ items.head hne) :
    ∃ (i : Nat) (hi : i + 1 < items.length), x = items[i + 1] := by
  obtain ⟨i, hi, hget⟩ := List.getElem_of_mem hx
  cases i with
  | zero =>
    exfalso
    apply hfirst
    rw [← hget]
    cases items with
    | nil => exact absurd rfl hne
    | cons a t => rfl
  | succ j => exact ⟨j, hi, hget.symm⟩

theorem Dropdown.getElem_ne_getLast (items : List Nat) (hne : items ≠ []) (hnd : items.Nodup)
    (i : Nat) (hi : i + 1 < items.length) : items[i] ≠ items.getLast hne := by
  rw [List.getLast_eq_getElem]
  intro h
  have := (List.Nodup.getElem_inj_iff hnd).mp h
  omega

theorem Dropdown.getElem_succ_ne_head (items : List Nat) (hne : items ≠ []) (hnd : items.Nodup)
    (i : Nat) (hi : i + 1 < items.length) : items[i + 1] ≠ items.head hne := by
  have h0 : items.head hne = items[0] := by
    cases items with
    | nil => exact absurd rfl hne
    | cons a t => rfl
  rw [h0]
  intro h
  have := (List.Nodup.getElem_inj_iff hnd).mp h
  omega

theorem Dropdown.focusNextMenuItem_succ (d : Dropdown) (p : Page)
    (hnd : (d.menuItems p).Nodup) (i : Nat) (hi : i + 1 < (d.menuItems p).length) :
    d.focusNextMenuItem (some (d.menuItems p)[i]) p = some (p.focus (d.menuItems p)[i + 1]) := by
  have hlt : i < (d.menuItems p).length := by omega
  rw [Dropdown.focusNextMenuItem_item d p hnd i hlt]
  simp [Nat.mod_eq_of_lt hi]

theorem Dropdown.focusPreviousMenuItem_pred (d : Dropdown) (p : Page)
    (hnd : (d.menuItems p).Nodup) (i : Nat) (hi : i + 1 < (d.menuItems p).length) :
    d.focusPreviousMenuItem (some (d.menuItems p)[i + 1]) p =
      some (p.focus (d.menuItems p)[i]) := by
  rw [Dropdown.focusPreviousMenuItem_item d p hnd (i + 1) hi]
  simp

/-! ## Lemmas on placement classes -/

theorem Dropdown.mem_classList_dismiss (d : Dropdown) (p : Page) (c : String) :
    c ∈ ((d.dismiss p).elems d.menu).classList ↔
      c ∈ (p.elems d.menu).classList ∧
        ¬ (d.isExpanded p = true ∧ c ∈ ["dropdown-menu-end", "dropdown-menu-top"]) := by
  cases h : d.isExpanded p
  · simp [Dropdown.dismiss_of_not_expanded d p h]
  · rw [Dropdown.dismiss_of_expanded d p h, Page.mem_classList_classListRemove,
      Page.classList_setAriaExpanded]
    simp

theorem Dropdown.mem_classList_anchorStep (w : Window) (d : Dropdown) (p : Page) (c : String) :
    c ∈ ((d.anchorStep w p).elems d.menu).classList ↔
      c ∈ (p.elems d.menu).classList ∨
      (c = "dropdown-menu-end" ∧
        ((w.getBoundingClientRect p d.menu).left < 0 ∨
          w.add (w.getBoundingClientRect p d.menu).left (w.getBoundingClientRect p d.menu).width
            > w.innerWidth ∨
          d.menuPlacement.end_ = true)) ∨
      (c = "dropdown-menu-top" ∧
        ((w.getBoundingClientRect p d.menu).top < 0 ∨
          w.add (w.getBoundingClientRect p d.menu).top (w.getBoundingClientRect p d.menu).height
            > w.innerHeight ∨
          d.menuPlacement.top = true)) := by
  unfold Dropdown.anchorStep
  simp only [Bool.or_eq_true, decide_eq_true_eq, or_assoc]
  split <;> split <;>
    (try simp only [Page.mem_classList_classListAdd, true_and]) <;> tauto

theorem Dropdown.mem_classList_handleOverflow (w : Window) (d : Dropdown) (p : Page)
    (c : String) :
    c ∈ ((d.handleOverflow w p).elems d.menu).classList ↔
      c ∈ ((d.anchorStep w p).elems d.menu).classList ∧
        ¬ ((w.getBoundingClientRect (d.anchorStep w p) d.menu).top < 0 ∧
            c = "dropdown-menu-top") := by
  unfold Dropdown.handleOverflow
  simp only
  split
  · rename_i h
    simp [Page.mem_classList_classListRemove, h]
  · rename_i h
    simp [h]

theorem EndClassStatic.openMenu (p0 p : Page) (w : Window) (d : Dropdown)
    (h : EndClassStatic p0 p) : EndClassStatic p0 (d.openMenu w p) := by
  intro m hm hc
  by_cases hmenu : m = d.menu
  · cases he : d.isExpanded p
    · exfalso
      apply hm
      rw [Dropdown.getAriaExpanded_openMenu]
      simp [hmenu, he]
    · rw [Dropdown.openMenu_of_expanded w d p he] at hm hc
      exact h m hm hc
  · rw [Dropdown.elems_openMenu_of_ne w d p m hmenu] at hc
    apply h m _ hc
    intro hcon
    apply hm
    unfold Page.getAriaExpanded at hcon ⊢
    rw [Dropdown.elems_openMenu_of_ne w d p m hmenu]
    exact hcon

theorem EndClassStatic.dismiss (p0 p : Page) (d : Dropdown)
    (h : EndClassStatic p0 p) : EndClassStatic p0 (d.dismiss p) := by
  intro m hm hc
  by_cases hmenu : m = d.menu
  · cases he : d.isExpanded p
    · rw [Dropdown.dismiss_of_not_expanded d p he] at hm hc
      exact h m hm hc
    · exfalso
      rw [hmenu, Dropdown.mem_classList_dismiss] at hc
      apply hc.2
      exact ⟨he, by simp⟩
  · rw [Dropdown.elems_dismiss_of_ne d p m hmenu] at hc
    apply h m _ hc
    intro hcon
    apply hm
    unfold Page.getAriaExpanded at hcon ⊢
    rw [Dropdown.elems_dismiss_of_ne d p m hmenu]
    exact hcon

theorem EndClassStatic.of_reachable (dropdowns : List Dropdown) (p0 p : Page)
    (h : Reachable dropdowns p0 p) : EndClassStatic p0 p := by
  induction h with
  | init => intro m _ hc; exact hc
  | step r q _ hstep ih =>
    refine Step.preserves dropdowns (EndClassStatic p0) ?_ ?_ ?_ r q hstep ih
    · intro a b hab ha m hm hc
      unfold Page.getAriaExpanded at hm
      rw [hab] at hm hc
      exact ha m hm hc
    · intro w d _ a ha
      exact EndClassStatic.openMenu p0 a w d ha
    · intro d _ a ha
      exact EndClassStatic.dismiss p0 a d ha

/-- Every registered dropdown was built by the constructor on the page of registration. -/
theorem registerDropdowns_new (p0 : Page) (d : Dropdown) (hd : d ∈ registerDropdowns p0) :
    d = Dropdown.new p0 d.toggle d.menu := by
  unfold registerDropdowns at hd
  rw [List.mem_filterMap] at hd
  obtain ⟨toggle, -, h⟩ := hd
  split at h
  · split at h
    · simp only [Option.some.injEq] at h
      rw [← h]
      rfl
    · cases h
  · cases h

/-! ## Lemmas on registration -/

/-- Registration gives every dropdown a menu of its own: the toggles found are distinct
elements and no two elements have the same next sibling. -/
theorem registerDropdowns_menus_nodup (p0 : Page) (htoggles : p0.dropdownToggles.Nodup)
    (hsibling : ∀ a b m : Nat, p0.nextElementSibling a = some m →
      p0.nextElementSibling b = some m → a = b) :
    ((registerDropdowns p0).map Dropdown.menu).Nodup := by
  unfold registerDropdowns
  rw [List.map_filterMap]
  apply List.Nodup.filterMap _ htoggles
  intro a b m ha hb
  have key : ∀ t : Nat,
      m ∈ Option.map Dropdown.menu
        (match p0.nextElementSibling t with
          | some menu =>
            if p0.classListContains menu "dropdown-menu" = true then
              some (Dropdown.new p0 t menu)
            else none
          | none => none) →
      p0.nextElementSibling t = some m := by
    intro t ht
    cases hn : p0.nextElementSibling t with
    | none => rw [hn] at ht; simp at ht
    | some menu =>
      rw [hn] at ht
      by_cases hc : p0.classListContains menu "dropdown-menu" = true
      · simp [hc, Dropdown.new] at ht
        rw [ht]
      · simp [hc] at ht
  exact hsibling a b m (key a ha) (key b hb)

/-! ## Lemmas on `toggleKeyHandler` -/

theorem Dropdown.menuitems_dismiss (d : Dropdown) (p : Page) :
    (d.dismiss p).menuitems = p.menuitems := by
  unfold Dropdown.dismiss
  split <;> rfl

theorem Dropdown.menuitems_anchorStep (w : Window) (d : Dropdown) (p : Page) :
    (d.anchorStep w p).menuitems = p.menuitems := by
  unfold Dropdown.anchorStep
  simp only
  split <;> split <;> rfl

theorem Dropdown.menuitems_openMenu (w : Window) (d : Dropdown) (p : Page) :
    (d.openMenu w p).menuitems = p.menuitems := by
  unfold Dropdown.openMenu Dropdown.handleOverflow
  simp only
  split
  · rfl
  · split <;> simp [Page.classListRemove, Dropdown.menuitems_anchorStep, Page.setAriaExpanded]

/-- The item array `open` leaves behind is the one it found. -/
theorem Dropdown.menuItems_openMenu (w : Window) (d : Dropdown) (p : Page) :
    d.menuItems (d.openMenu w p) = d.menuItems p := by
  unfold Dropdown.menuItems
  rw [Dropdown.menuitems_openMenu]

/-- The branch `ENTER`, `SPACE`, `DOWN` of `toggleKeyHandler` (lines 404-410). -/
theorem Dropdown.toggleKeyHandler_open_first (w : Window) (d : Dropdown) (e : KeyboardEvent)
    (p : Page) (hne : d.menuItems p ≠ [])
    (hkey : e.keyCode = ENTER ∨ e.keyCode = SPACE ∨ e.keyCode = DOWN) :
    d.toggleKeyHandler w e p =
      some (e.preventDefault, (d.openMenu w p).focus ((d.menuItems p).head hne)) := by
  have hne2 : d.menuItems (d.openMenu w p) ≠ [] := by
    rw [Dropdown.menuItems_openMenu]; exact hne
  have hhead : (d.menuItems (d.openMenu w p)).head hne2 = (d.menuItems p).head hne := by
    simp only [Dropdown.menuItems_openMenu]
  unfold Dropdown.toggleKeyHandler
  rw [if_pos hkey, Dropdown.focusNextMenuItem_first d _ none hne2 (Or.inl rfl), hhead]
  rfl

/-- The branch `UP` of `toggleKeyHandler` (lines 411-415). -/
theorem Dropdown.toggleKeyHandler_open_last (w : Window) (d : Dropdown) (e : KeyboardEvent)
    (p : Page) (hne : d.menuItems p ≠ []) (hkey : e.keyCode = UP) :
    d.toggleKeyHandler w e p =
      some (e.preventDefault, (d.openMenu w p).focus ((d.menuItems p).getLast hne)) := by
  have hne2 : d.menuItems (d.openMenu w p) ≠ [] := by
    rw [Dropdown.menuItems_openMenu]; exact hne
  have hlast : (d.menuItems (d.openMenu w p)).getLast hne2 = (d.menuItems p).getLast hne := by
    simp only [Dropdown.menuItems_openMenu]
  have h1 : ¬ (UP = ENTER ∨ UP = SPACE ∨ UP = DOWN) := by decide
  unfold Dropdown.toggleKeyHandler
  rw [hkey, if_neg h1, if_pos rfl,
    Dropdown.focusPreviousMenuItem_last d _ none hne2 (Or.inl rfl), hlast]
  rfl

/-- The branch `ESCAPE` of `toggleKeyHandler` (lines 416-419). -/
theorem Dropdown.toggleKeyHandler_escape (w : Window) (d : Dropdown) (e : KeyboardEvent)
    (p : Page) (hkey : e.keyCode = ESCAPE) :
    d.toggleKeyHandler w e p = some (e, (d.dismiss p).focus d.toggle) := by
  have h1 : ¬ (ESCAPE = ENTER ∨ ESCAPE = SPACE ∨ ESCAPE = DOWN) := by decide
  have h2 : ¬ ESCAPE = UP := by decide
  unfold Dropdown.toggleKeyHandler
  rw [hkey, if_neg h1, if_neg h2, if_pos rfl]

/-- A run of `toggleKeyHandler` leaves every element other than its own menu as it is. -/
theorem Dropdown.toggleKeyHandler_elems_of_ne (w : Window) (d : Dropdown)
    (e e2 : KeyboardEvent) (p q : Page) (h : d.toggleKeyHandler w e p = some (e2, q))
    (x : Nat) (hx : x ≠ d.menu) : q.elems x = p.elems x := by
  rcases Dropdown.toggleKeyHandler_elems w d e e2 p q h with h1 | h1 | h1
  · rw [h1, Dropdown.elems_openMenu_of_ne w d p x hx]
  · rw [h1, Dropdown.elems_dismiss_of_ne d p x hx]
  · rw [h1]

/-! ## Lemmas on `Enter` and `Space` in `menuKeyHandler` -/

/-- The branch `ENTER`, `SPACE` of `menuKeyHandler` (lines 456-460). -/
theorem Dropdown.menuKeyHandler_click (w : Window) (dropdowns : List Dropdown) (d : Dropdown)
    (e : KeyboardEvent) (p : Page) (hkey : e.keyCode = ENTER ∨ e.keyCode = SPACE) :
    d.menuKeyHandler w dropdowns e p =
      some (e.preventDefault, dispatchClick w dropdowns e.target (p.click e.target)) := by
  have h1 : ¬ e.keyCode = ESCAPE := by
    rcases hkey with h | h <;> rw [h] <;> decide
  have h2 : ¬ e.keyCode = DOWN := by
    rcases hkey with h | h <;> rw [h] <;> decide
  have h3 : ¬ e.keyCode = UP := by
    rcases hkey with h | h <;> rw [h] <;> decide
  have h4 : ¬ e.keyCode = TAB := by
    rcases hkey with h | h <;> rw [h] <;> decide
  unfold Dropdown.menuKeyHandler
  simp only [h1, h2, h3, h4, hkey, if_false, if_true]

/-- The click listeners of the toggles leave the relation `contains` as it is. -/
theorem toggleClicks_contains (w : Window) (target : Nat) (p : Page) (l : List Dropdown) :
    (l.foldr
      (fun dropdown q =>
        if q.contains dropdown.toggle target then dropdown.clickHandler w q else q)
      p).contains = p.contains :=
  toggleClicks_preserves w (fun r => r.contains = p.contains) target p l
    (fun d _ r hr => (Dropdown.contains_openMenu w d r).trans hr)
    (fun d _ r hr => (Dropdown.contains_dismiss d r).trans hr) rfl

/-- After the dispatch of a click no registered dropdown whose toggle does not contain the
target is expanded: `Enter` on a menu item, which the toggle does not contain, closes the
menu before `menuKeyHandler` returns. -/
theorem dispatchClick_dismisses (w : Window) (dropdowns : List Dropdown) (target : Nat)
    (p : Page) (d : Dropdown) (hd : d ∈ dropdowns)
    (hout : p.contains d.toggle target = false) :
    d.isExpanded (dispatchClick w dropdowns target p) = false := by
  unfold dispatchClick
  apply documentClick_dismisses d target dropdowns _ hd
  rw [toggleClicks_contains]
  exact hout

/-! ## Menu-item navigation -/

/-- C1: `focusNextMenuItem` on a non-empty array of distinct items focuses the first item
when `currentItem` is undefined, is not in the array or is the last item, and otherwise the
item right after `currentItem`; from position `i` of `n` it focuses position
`(i + 1) % n`. -/
theorem focusNextMenuItem_wraps (d : Dropdown) (p : Page) (currentItem : Option Nat)
    (hne : d.menuItems p ≠ []) (hnd : (d.menuItems p).Nodup) :
    ((currentItem = none ∨ (∀ x, currentItem = some x → x ∉ d.menuItems p) ∨
        currentItem = (d.menuItems p).getLast?) →
      d.focusNextMenuItem currentItem p = some (p.focus ((d.menuItems p).head hne))) ∧
    (∀ (i : Nat) (hi : i + 1 < (d.menuItems p).length),
      currentItem = some (d.menuItems p)[i] →
      d.focusNextMenuItem currentItem p = some (p.focus (d.menuItems p)[i + 1])) ∧
    (∀ (i : Nat) (hi : i < (d.menuItems p).length),
      currentItem = some (d.menuItems p)[i] →
      d.focusNextMenuItem currentItem p =
        some (p.focus ((d.menuItems p).get
          ⟨(i + 1) % (d.menuItems p).length,
            Nat.mod_lt _ (Nat.lt_of_le_of_lt (Nat.zero_le i) hi)⟩))) := by
  have hpos : 0 < (d.menuItems p).length := List.length_pos.mpr hne
  refine ⟨?_, ?_, ?_⟩
  · rintro (h | h | h)
    · exact Dropdown.focusNextMenuItem_first d p currentItem hne (Or.inl h)
    · exact Dropdown.focusNextMenuItem_first d p currentItem hne (Or.inr h)
    · rw [h, Dropdown.getLast?_eq_item _ hne]
      have hlt : (d.menuItems p).length - 1 < (d.menuItems p).length := by omega
      have := Dropdown.focusNextMenuItem_item d p hnd ((d.menuItems p).length - 1) hlt
      simp only [List.get_eq_getElem] at this ⊢
      rw [this, Dropdown.head_eq_item]
      have hmod : ((d.menuItems p).length - 1 + 1) % (d.menuItems p).length = 0 := by
        rw [Nat.sub_add_cancel hpos, Nat.mod_self]
      simp [hmod]
  · intro i hi hcur
    have hlt : i < (d.menuItems p).length := by omega
    rw [hcur, Dropdown.focusNextMenuItem_item d p hnd i hlt]
    simp [Nat.mod_eq_of_lt hi]
  · intro i hi hcur
    rw [hcur]
    exact Dropdown.focusNextMenuItem_item d p hnd i hi

/-- Witness of C1 on the items `[10, 11, 12]`: next from the last item `12`, and next with
no current item, focus the first item `10`; next from `10` focuses `11`. -/
theorem focusNextMenuItem_wraps_witness :
    demoDropdown.menuItems demoPage ≠ [] ∧ (demoDropdown.menuItems demoPage).Nodup ∧
    demoDropdown.focusNextMenuItem (some 12) demoPage = some (demoPage.focus 10) ∧
    demoDropdown.focusNextMenuItem none demoPage = some (demoPage.focus 10) ∧
    demoDropdown.focusNextMenuItem (some 10) demoPage = some (demoPage.focus 11) :=
  ⟨by decide, by decide,
    (focusNextMenuItem_wraps demoDropdown demoPage (some 12) (by decide) (by decide)).1
      (Or.inr (Or.inr rfl)),
    (focusNextMenuItem_wraps demoDropdown demoPage none (by decide) (by decide)).1
      (Or.inl rfl),
    (focusNextMenuItem_wraps demoDropdown demoPage (some 10) (by decide) (by decide)).2.1
      0 (by decide) rfl⟩

/-- C2: `focusPreviousMenuItem` on a non-empty array of distinct items focuses the last item
when `currentItem` is undefined, is not in the array or is the first item, and otherwise the
item right before `currentItem`. -/
theorem focusPreviousMenuItem_wraps (d : Dropdown) (p : Page) (currentItem : Option Nat)
    (hne : d.menuItems p ≠ []) (hnd : (d.menuItems p).Nodup) :
    ((currentItem = none ∨ (∀ x, currentItem = some x → x ∉ d.menuItems p) ∨
        currentItem = (d.menuItems p).head? ∨ Dropdown.indexOf (d.menuItems p) currentItem ≤ 0) →
      d.focusPreviousMenuItem currentItem p = some (p.focus ((d.menuItems p).getLast hne))) ∧
    (∀ (i : Nat) (hi : i + 1 < (d.menuItems p).length),
      currentItem = some (d.menuItems p)[i + 1] →
      d.focusPreviousMenuItem currentItem p = some (p.focus (d.menuItems p)[i])) := by
  have hpos : 0 < (d.menuItems p).length := List.length_pos.mpr hne
  have hfirst : d.focusPreviousMenuItem (some (d.menuItems p)[0]) p =
      some (p.focus ((d.menuItems p).getLast hne)) := by
    have := Dropdown.focusPreviousMenuItem_item d p hnd 0 hpos
    rw [this, List.getLast_eq_getElem]
    simp
  refine ⟨?_, ?_⟩
  · rintro (h | h | h | h)
    · exact Dropdown.focusPreviousMenuItem_last d p currentItem hne (Or.inl h)
    · exact Dropdown.focusPreviousMenuItem_last d p currentItem hne (Or.inr h)
    · rw [h, List.head?_eq_getElem?, List.getElem?_eq_getElem hpos]
      exact hfirst
    · cases currentItem with
      | none => exact Dropdown.focusPreviousMenuItem_last d p none hne (Or.inl rfl)
      | some x =>
        by_cases hx : x ∈ d.menuItems p
        · have hidx : (d.menuItems p).indexOf x < (d.menuItems p).length :=
            List.indexOf_lt_length.mpr hx
          have hzero : (d.menuItems p).indexOf x = 0 := by
            simp only [Dropdown.indexOf, hx, if_true] at h
            omega
          have hget : (d.menuItems p)[0] = x := by
            have := List.getElem_indexOf hidx
            simpa [hzero] using this
          rw [← hget]
          exact hfirst
        · exact Dropdown.focusPreviousMenuItem_last d p (some x) hne
            (Or.inr (by intro y hy; cases hy; exact hx))
  · intro i hi hcur
    rw [hcur, Dropdown.focusPreviousMenuItem_item d p hnd (i + 1) hi]
    simp

/-- Witness of C2 on the items `[10, 11, 12]`: previous from the first item `10`, and
previous with no current item, focus the last item `12`; previous from `12` focuses `11`. -/
theorem focusPreviousMenuItem_wraps_witness :
    demoDropdown.menuItems demoPage ≠ [] ∧ (demoDropdown.menuItems demoPage).Nodup ∧
    demoDropdown.focusPreviousMenuItem (some 10) demoPage = some (demoPage.focus 12) ∧
    demoDropdown.focusPreviousMenuItem none demoPage = some (demoPage.focus 12) ∧
    demoDropdown.focusPreviousMenuItem (some 12) demoPage = some (demoPage.focus 11) :=
  ⟨by decide, by decide,
    (focusPreviousMenuItem_wraps demoDropdown demoPage (some 10) (by decide) (by decide)).1
      (Or.inr (Or.inr (Or.inl rfl))),
    (focusPreviousMenuItem_wraps demoDropdown demoPage none (by decide) (by decide)).1
      (Or.inl rfl),
    (focusPreviousMenuItem_wraps demoDropdown demoPage (some 12) (by decide) (by decide)).2
      1 (by decide) rfl⟩

/-! ## Open and dismiss -/

/-- C3: `open` after `open` gives the page of a single `open`, `dismiss` after `dismiss` the
page of a single `dismiss`; `open` on an expanded menu and `dismiss` on a menu that is not
expanded change nothing. -/
theorem open_dismiss_idempotent (w1 w2 : Window) (d : Dropdown) (p : Page) :
    d.openMenu w2 (d.openMenu w1 p) = d.openMenu w1 p ∧
    d.dismiss (d.dismiss p) = d.dismiss p ∧
    (d.isExpanded p = true → d.openMenu w1 p = p) ∧
    (d.isExpanded p = false → d.dismiss p = p) :=
  ⟨Dropdown.openMenu_of_expanded w2 d _ (Dropdown.isExpanded_openMenu w1 d p),
    Dropdown.dismiss_of_not_expanded d _ (Dropdown.isExpanded_dismiss d p),
    Dropdown.openMenu_of_expanded w1 d p,
    Dropdown.dismiss_of_not_expanded d p⟩

/-- Witness of C3: the second demo dropdown is expanded and `open` leaves the page as it
is; the first one is not and `dismiss` leaves the page as it is. -/
theorem open_dismiss_idempotent_witness :
    demoDropdown2.isExpanded demoPage = true ∧
    demoDropdown2.openMenu demoWindow demoPage = demoPage ∧
    demoDropdown.isExpanded demoPage = false ∧
    demoDropdown.dismiss demoPage = demoPage :=
  ⟨by decide,
    (open_dismiss_idempotent demoWindow demoWindow demoDropdown2 demoPage).2.2.1 (by decide),
    by decide,
    (open_dismiss_idempotent demoWindow demoWindow demoDropdown demoPage).2.2.2 (by decide)⟩

/-- C4, as stated, fails: on the demo page toggle and menu both carry `aria-expanded`
`"false"`; after `open` the menu carries `"true"` and the toggle still `"false"`. -/
theorem mirrored_expanded_fails :
    demoPage.getAriaExpanded demoDropdown.toggle = demoPage.getAriaExpanded demoDropdown.menu ∧
    (demoDropdown.openMenu demoWindow demoPage).getAriaExpanded demoDropdown.menu =
      some "true" ∧
    (demoDropdown.openMenu demoWindow demoPage).getAriaExpanded demoDropdown.toggle =
      some "false" ∧
    (demoDropdown.openMenu demoWindow demoPage).getAriaExpanded demoDropdown.toggle ≠
      (demoDropdown.openMenu demoWindow demoPage).getAriaExpanded demoDropdown.menu := by
  have hm : (demoDropdown.openMenu demoWindow demoPage).getAriaExpanded demoDropdown.menu =
      some "true" := by
    rw [Dropdown.getAriaExpanded_openMenu]; decide
  have ht : (demoDropdown.openMenu demoWindow demoPage).getAriaExpanded demoDropdown.toggle =
      some "false" := by
    rw [Dropdown.getAriaExpanded_openMenu]; decide
  refine ⟨by decide, hm, ht, ?_⟩
  rw [hm, ht]
  decide

/-- C4, amended: a transition of the widget writes `aria-expanded` on menus only.  The
attribute of every element that is not the menu of a registered dropdown, the toggle among
them, keeps its value; `open` leaves the menu expanded and `dismiss` leaves it not
expanded.  It is `toggleNavigation` that sets the same value on toggle and menu. -/
theorem dropdown_writes_menu_attribute_only (dropdowns : List Dropdown) (p q : Page)
    (hstep : Step dropdowns p q) (x : Nat) (hx : ∀ d ∈ dropdowns, d.menu ≠ x) :
    q.getAriaExpanded x = p.getAriaExpanded x ∧
    (∀ (w : Window) (d : Dropdown) (r : Page), d.isExpanded (d.openMenu w r) = true) ∧
    (∀ (d : Dropdown) (r : Page), d.isExpanded (d.dismiss r) = false) ∧
    (∀ (toggle menu : Nat) (r : Page),
      (toggleNavigation toggle menu r).getAriaExpanded toggle =
        (toggleNavigation toggle menu r).getAriaExpanded menu) := by
  refine ⟨?_, Dropdown.isExpanded_openMenu, Dropdown.isExpanded_dismiss, ?_⟩
  · refine Step.preserves dropdowns (fun r => r.getAriaExpanded x = p.getAriaExpanded x)
      ?_ ?_ ?_ p q hstep rfl
    · intro r s hs hr
      simp only [Page.getAriaExpanded, hs] at hr ⊢
      exact hr
    · intro w d hd r hr
      simp only [Page.getAriaExpanded] at hr ⊢
      rw [Dropdown.elems_openMenu_of_ne w d r x (Ne.symm (hx d hd))]
      exact hr
    · intro d hd r hr
      simp only [Page.getAriaExpanded] at hr ⊢
      rw [Dropdown.elems_dismiss_of_ne d r x (Ne.symm (hx d hd))]
      exact hr
  · intro toggle menu r
    unfold toggleNavigation
    simp only [Page.getAriaExpanded_setAriaExpanded]
    by_cases h : menu = toggle <;> simp [h]

/-- Witness of amended C4: `open` on the first demo dropdown leaves the `aria-expanded` of
its toggle, element `0`, as it was. -/
theorem dropdown_writes_menu_attribute_only_witness :
    (∀ d ∈ [demoDropdown, demoDropdown2], d.menu ≠ 0) ∧
    (demoDropdown.openMenu demoWindow demoPage).getAriaExpanded 0 =
      demoPage.getAriaExpanded 0 :=
  ⟨by decide,
    (dropdown_writes_menu_attribute_only [demoDropdown, demoDropdown2] demoPage
      (demoDropdown.openMenu demoWindow demoPage)
      (Step.openMenu demoWindow demoDropdown demoPage (by decide)) 0 (by decide)).1⟩

/-! ## Clicks -/

/-- C5: after the page-wide click listener has run, no registered dropdown whose toggle
does not contain the click target is expanded.  With `d1` expanded and the click on its
toggle, `d1` is closed by its own click handler and stays closed, and any `d2` whose toggle
does not contain the target is closed by the sweep. -/
theorem click_outside_dismisses (w : Window) (dropdowns : List Dropdown) (target : Nat)
    (p : Page) :
    (∀ d ∈ dropdowns, p.contains d.toggle target = false →
      d.isExpanded (documentClick dropdowns target p) = false) ∧
    (∀ d1 ∈ dropdowns, ∀ d2 ∈ dropdowns,
      p.contains d1.toggle target = true → p.contains d2.toggle target = false →
      d1.isExpanded p = true →
      d1.isExpanded (d1.clickHandler w p) = false ∧
      d1.isExpanded (documentClick dropdowns target (d1.clickHandler w p)) = false ∧
      d2.isExpanded (documentClick dropdowns target (d1.clickHandler w p)) = false) := by
  refine ⟨fun d hd hc => documentClick_dismisses d target dropdowns p hd hc, ?_⟩
  intro d1 _ d2 h2 _ hout hexp
  have hd1 : d1.isExpanded (d1.clickHandler w p) = false := by
    rw [Dropdown.isExpanded_clickHandler, hexp]; rfl
  refine ⟨hd1, documentClick_keeps_closed d1 dropdowns target _ hd1, ?_⟩
  apply documentClick_dismisses d2 target dropdowns _ h2
  rw [Dropdown.contains_clickHandler]
  exact hout

/-- Witness of C5: on the demo page the second dropdown is expanded; a click on element
`99`, outside both toggles, leaves both dropdowns closed, and a click on element `2`, its
own toggle, leaves it closed after handler and sweep. -/
theorem click_outside_dismisses_witness :
    demoDropdown2.isExpanded demoPage = true ∧
    demoPage.contains demoDropdown.toggle 99 = false ∧
    demoPage.contains demoDropdown2.toggle 99 = false ∧
    demoDropdown.isExpanded
      (documentClick [demoDropdown, demoDropdown2] 99 demoPage) = false ∧
    demoDropdown2.isExpanded
      (documentClick [demoDropdown, demoDropdown2] 99 demoPage) = false ∧
    demoDropdown2.isExpanded (documentClick [demoDropdown, demoDropdown2] 2
      (demoDropdown2.clickHandler demoWindow demoPage)) = false :=
  ⟨by decide, by decide, by decide,
    (click_outside_dismisses demoWindow [demoDropdown, demoDropdown2] 99 demoPage).1
      demoDropdown (by decide) (by decide),
    (click_outside_dismisses demoWindow [demoDropdown, demoDropdown2] 99 demoPage).1
      demoDropdown2 (by decide) (by decide),
    ((click_outside_dismisses demoWindow [demoDropdown, demoDropdown2] 2 demoPage).2
      demoDropdown2 (by decide) demoDropdown (by decide) (by decide) (by decide)
      (by decide)).2.1⟩

/-- C6: for a registered dropdown `d` (no other registered dropdown has its menu) and a
click whose target the toggle of `d` contains, after `clickHandler` and then the page-wide
sweep `d` is expanded if and only if it was not expanded before. -/
theorem toggle_click_flips (w : Window) (dropdowns : List Dropdown) (target : Nat)
    (p : Page) (d : Dropdown) (hd : d ∈ dropdowns)
    (hmenus : (dropdowns.map Dropdown.menu).Nodup)
    (hin : p.contains d.toggle target = true) :
    d.isExpanded (documentClick dropdowns target (d.clickHandler w p)) = !d.isExpanded p ∧
    (documentClick dropdowns target (d.clickHandler w p)).elems d.menu =
      (d.clickHandler w p).elems d.menu := by
  have hel : (documentClick dropdowns target (d.clickHandler w p)).elems d.menu =
      (d.clickHandler w p).elems d.menu := by
    apply documentClick_elems
    intro d2 hd2 hm
    have : d2 = d := List.inj_on_of_nodup_map hmenus hd2 hd hm
    rw [this, Dropdown.contains_clickHandler]
    exact hin
  refine ⟨?_, hel⟩
  rw [← Dropdown.isExpanded_clickHandler w d p]
  unfold Dropdown.isExpanded Page.getAriaExpanded
  rw [hel]

/-- Witness of C6: a click on element `0`, the toggle of the first demo dropdown, which is
not expanded, leaves it expanded after handler and sweep. -/
theorem toggle_click_flips_witness :
    demoDropdown ∈ [demoDropdown, demoDropdown2] ∧
    ([demoDropdown, demoDropdown2].map Dropdown.menu).Nodup ∧
    demoPage.contains demoDropdown.toggle 0 = true ∧
    demoDropdown.isExpanded demoPage = false ∧
    demoDropdown.isExpanded (documentClick [demoDropdown, demoDropdown2] 0
      (demoDropdown.clickHandler demoWindow demoPage)) = true :=
  ⟨by decide, by decide, by decide, by decide,
    (toggle_click_flips demoWindow [demoDropdown, demoDropdown2] 0 demoPage demoDropdown
      (by decide) (by decide) (by decide)).1⟩

/-! ## Tab inside the menu -/

/-- C7: in an expanded dropdown with a non-empty array of distinct items, `Tab` without
shift on the last item, and `Tab` with shift on the first item, dismiss the menu and do not
call `preventDefault`; on any other target `Tab` calls `preventDefault`, leaves the menu
expanded and focuses the next item (no shift) or the previous item (shift), the first
respectively last item when the target is not a menu item. -/
theorem tab_boundary (w : Window) (dropdowns : List Dropdown) (d : Dropdown)
    (e : KeyboardEvent) (p : Page)
    (hkey : e.keyCode = TAB) (hexp : d.isExpanded p = true)
    (hne : d.menuItems p ≠ []) (hnd : (d.menuItems p).Nodup) :
    (e.shiftKey = false → e.target = (d.menuItems p).getLast hne →
      d.menuKeyHandler w dropdowns e p = some (e, d.dismiss p) ∧
        d.isExpanded (d.dismiss p) = false) ∧
    (e.shiftKey = true → e.target = (d.menuItems p).head hne →
      d.menuKeyHandler w dropdowns e p = some (e, d.dismiss p) ∧
        d.isExpanded (d.dismiss p) = false) ∧
    (e.shiftKey = false → e.target ≠ (d.menuItems p).getLast hne →
      ∃ item ∈ d.menuItems p,
        d.menuKeyHandler w dropdowns e p = some (e.preventDefault, p.focus item) ∧
        d.isExpanded (p.focus item) = true ∧
        (∀ (i : Nat) (hi : i + 1 < (d.menuItems p).length),
          e.target = (d.menuItems p)[i] → item = (d.menuItems p)[i + 1]) ∧
        (e.target ∉ d.menuItems p → item = (d.menuItems p).head hne)) ∧
    (e.shiftKey = true → e.target ≠ (d.menuItems p).head hne →
      ∃ item ∈ d.menuItems p,
        d.menuKeyHandler w dropdowns e p = some (e.preventDefault, p.focus item) ∧
        d.isExpanded (p.focus item) = true ∧
        (∀ (i : Nat) (hi : i + 1 < (d.menuItems p).length),
          e.target = (d.menuItems p)[i + 1] → item = (d.menuItems p)[i]) ∧
        (e.target ∉ d.menuItems p → item = (d.menuItems p).getLast hne)) := by
  have hfocus : ∀ item, d.isExpanded (p.focus item) = true := fun item => by
    rw [Dropdown.isExpanded_focus]; exact hexp
  refine ⟨?_, ?_, ?_, ?_⟩
  · intro hs ht
    refine ⟨?_, Dropdown.isExpanded_dismiss d p⟩
    rw [Dropdown.menuKeyHandler_tab w dropdowns d e p hkey hne]
    simp [hs, ht]
  · intro hs ht
    refine ⟨?_, Dropdown.isExpanded_dismiss d p⟩
    rw [Dropdown.menuKeyHandler_tab w dropdowns d e p hkey hne]
    simp [hs, ht]
  · intro hs ht
    rw [Dropdown.menuKeyHandler_tab w dropdowns d e p hkey hne]
    simp only [hs, Bool.false_eq_true, if_false, ht]
    by_cases hx : e.target ∈ d.menuItems p
    · obtain ⟨i, hi, hget⟩ := Dropdown.position_of_ne_getLast _ hne _ hx ht
      refine ⟨(d.menuItems p)[i + 1], List.getElem_mem hi, ?_, hfocus _, ?_, ?_⟩
      · rw [hget, Dropdown.focusNextMenuItem_succ d p hnd i hi]
        rfl
      · intro j hj hj2
        have hij : i = j := by
          have h := hget.symm.trans hj2
          exact (List.Nodup.getElem_inj_iff hnd).mp h
        subst hij
        rfl
      · intro hnot
        exact absurd hx hnot
    · refine ⟨(d.menuItems p).head hne, List.head_mem hne, ?_, hfocus _, ?_, ?_⟩
      · rw [Dropdown.focusNextMenuItem_first d p (some e.target) hne
          (Or.inr (by intro y hy; cases hy; exact hx))]
        rfl
      · intro j hj hj2
        exact absurd (hj2 ▸ List.getElem_mem (by omega)) hx
      · intro _
        rfl
  · intro hs ht
    rw [Dropdown.menuKeyHandler_tab w dropdowns d e p hkey hne]
    simp only [hs, if_true, ht, if_false]
    by_cases hx : e.target ∈ d.menuItems p
    · obtain ⟨i, hi, hget⟩ := Dropdown.position_of_ne_head _ hne _ hx ht
      refine ⟨(d.menuItems p)[i], List.getElem_mem (by omega), ?_, hfocus _, ?_, ?_⟩
      · rw [hget, Dropdown.focusPreviousMenuItem_pred d p hnd i hi]
        rfl
      · intro j hj hj2
        have hij : i + 1 = j + 1 := by
          have h := hget.symm.trans hj2
          exact (List.Nodup.getElem_inj_iff hnd).mp h
        have hij2 : i = j := by omega
        subst hij2
        rfl
      · intro hnot
        exact absurd hx hnot
    · refine ⟨(d.menuItems p).getLast hne, List.getLast_mem hne, ?_, hfocus _, ?_, ?_⟩
      · rw [Dropdown.focusPreviousMenuItem_last d p (some e.target) hne
          (Or.inr (by intro y hy; cases hy; exact hx))]
        rfl
      · intro j hj hj2
        exact absurd (hj2 ▸ List.getElem_mem hj) hx
      · intro _
        rfl

/-- Witness of C7 on the expanded demo dropdown with items `[13, 14, 15]`: `Tab` on the
last item `15` dismisses the menu and returns the event as it was, not prevented. -/
theorem tab_boundary_witness :
    demoDropdown2.isExpanded demoPage = true ∧
    demoDropdown2.menuItems demoPage ≠ [] ∧ (demoDropdown2.menuItems demoPage).Nodup ∧
    demoDropdown2.menuKeyHandler demoWindow [demoDropdown, demoDropdown2]
        { keyCode := TAB, shiftKey := false, target := 15, defaultPrevented := false }
        demoPage =
      some ({ keyCode := TAB, shiftKey := false, target := 15, defaultPrevented := false },
        demoDropdown2.dismiss demoPage) ∧
    demoDropdown2.isExpanded (demoDropdown2.dismiss demoPage) = false :=
  ⟨by decide, by decide, by decide,
    (tab_boundary demoWindow [demoDropdown, demoDropdown2] demoDropdown2
      { keyCode := TAB, shiftKey := false, target := 15, defaultPrevented := false }
      demoPage rfl (by decide) (by decide) (by decide)).1 rfl rfl⟩

/-! ## Placement -/

/-- C8: when the box measured after the anchor steps of `handleOverflow` starts above the
viewport, the menu does not carry `dropdown-menu-top` when `handleOverflow` returns, nor
when the `open` that called it returns, whatever the preference and the first measurement. -/
theorem overflow_correction (w : Window) (d : Dropdown) (p : Page)
    (htop : (w.getBoundingClientRect (d.anchorStep w p) d.menu).top < 0) :
    (d.handleOverflow w p).classListContains d.menu "dropdown-menu-top" = false ∧
    (∀ p0 : Page, d.isExpanded p0 = false → p0.setAriaExpanded d.menu true = p →
      (d.openMenu w p0).classListContains d.menu "dropdown-menu-top" = false) := by
  have h : (d.handleOverflow w p).classListContains d.menu "dropdown-menu-top" = false := by
    unfold Page.classListContains
    rw [decide_eq_false_iff_not, Dropdown.mem_classList_handleOverflow]
    intro hc
    exact hc.2 ⟨htop, rfl⟩
  refine ⟨h, ?_⟩
  intro p0 hclosed hp
  rw [Dropdown.openMenu_of_not_expanded w d p0 hclosed, hp]
  exact h

/-- Witness of C8: in the low viewport the first demo dropdown overflows at the bottom, is
anchored on top, then starts at `-30`; after `open` it does not carry `dropdown-menu-top`. -/
theorem overflow_correction_witness :
    (demoLowWindow.getBoundingClientRect
      (demoDropdown.anchorStep demoLowWindow (demoPage.setAriaExpanded 1 true)) 1).top < 0 ∧
    (demoDropdown.anchorStep demoLowWindow
      (demoPage.setAriaExpanded 1 true)).classListContains 1 "dropdown-menu-top" = true ∧
    (demoDropdown.openMenu demoLowWindow demoPage).classListContains 1
      "dropdown-menu-top" = false :=
  have hanchor : (demoDropdown.anchorStep demoLowWindow
      (demoPage.setAriaExpanded 1 true)).classListContains 1 "dropdown-menu-top" = true := by
    unfold Page.classListContains
    rw [decide_eq_true_iff]
    exact (Dropdown.mem_classList_anchorStep demoLowWindow demoDropdown _ _).mpr
      (Or.inr (Or.inr ⟨rfl, Or.inr (Or.inl (by
        simp [demoLowWindow, Page.classListContains, Page.setAriaExpanded, demoPage,
          demoDropdown, Dropdown.new]
        norm_num))⟩))
  have htop : (demoLowWindow.getBoundingClientRect
      (demoDropdown.anchorStep demoLowWindow (demoPage.setAriaExpanded 1 true)) 1).top < 0 := by
    have h : (demoLowWindow.getBoundingClientRect
        (demoDropdown.anchorStep demoLowWindow (demoPage.setAriaExpanded 1 true)) 1) =
        { left := 10, top := -30, width := 100, height := 50 } := by
      show (if _ then _ else _) = _
      rw [if_pos hanchor]
    rw [h]
    norm_num
  ⟨htop, hanchor,
    (overflow_correction demoLowWindow demoDropdown (demoPage.setAriaExpanded 1 true)
      htop).2 demoPage (by decide) rfl⟩

/-- C9: `dismiss` on an expanded dropdown leaves the menu with `aria-expanded` `"false"` and
without `dropdown-menu-end` and `dropdown-menu-top`; after a following `open` the menu
carries `dropdown-menu-end` exactly when the box measured in that `open` has `left < 0`, or
the sum `left + width` as the script computes it (`w.add`) is above `innerWidth`, or the
preference is `end`; and `dropdown-menu-top` exactly when that box has `top < 0`, or the
computed sum `top + height` is above `innerHeight`, or the preference is `top`, and the box
measured again does not start above the viewport. -/
theorem dismiss_clears_placement (w : Window) (d : Dropdown) (p : Page)
    (hexp : d.isExpanded p = true) :
    (d.dismiss p).getAriaExpanded d.menu = some "false" ∧
    (d.dismiss p).classListContains d.menu "dropdown-menu-end" = false ∧
    (d.dismiss p).classListContains d.menu "dropdown-menu-top" = false ∧
    ((d.openMenu w (d.dismiss p)).classListContains d.menu "dropdown-menu-end" = true ↔
      ((d.measuredRect w (d.dismiss p)).left < 0 ∨
        w.add (d.measuredRect w (d.dismiss p)).left (d.measuredRect w (d.dismiss p)).width
          > w.innerWidth ∨
        d.menuPlacement.end_ = true)) ∧
    ((d.openMenu w (d.dismiss p)).classListContains d.menu "dropdown-menu-top" = true ↔
      (((d.measuredRect w (d.dismiss p)).top < 0 ∨
        w.add (d.measuredRect w (d.dismiss p)).top (d.measuredRect w (d.dismiss p)).height
          > w.innerHeight ∨
        d.menuPlacement.top = true) ∧
        ¬ (d.remeasuredRect w (d.dismiss p)).top < 0)) := by
  have hattr : (d.dismiss p).getAriaExpanded d.menu = some "false" := by
    rw [Dropdown.getAriaExpanded_dismiss]; simp [hexp]
  have hend : ¬ "dropdown-menu-end" ∈ ((d.dismiss p).elems d.menu).classList := by
    rw [Dropdown.mem_classList_dismiss]
    intro hc
    exact hc.2 ⟨hexp, by simp⟩
  have htop : ¬ "dropdown-menu-top" ∈ ((d.dismiss p).elems d.menu).classList := by
    rw [Dropdown.mem_classList_dismiss]
    intro hc
    exact hc.2 ⟨hexp, by simp⟩
  have hne : ¬ ("dropdown-menu-end" = "dropdown-menu-top") := by decide
  have hne2 : ¬ ("dropdown-menu-top" = "dropdown-menu-end") := by decide
  refine ⟨hattr, ?_, ?_, ?_, ?_⟩
  · unfold Page.classListContains
    rw [decide_eq_false_iff_not]
    exact hend
  · unfold Page.classListContains
    rw [decide_eq_false_iff_not]
    exact htop
  · unfold Page.classListContains Dropdown.measuredRect
    rw [decide_eq_true_iff,
      Dropdown.openMenu_of_not_expanded w d _ (Dropdown.isExpanded_dismiss d p),
      Dropdown.mem_classList_handleOverflow, Dropdown.mem_classList_anchorStep,
      Page.classList_setAriaExpanded]
    simp only [hend, hne, false_or, true_and, false_and, or_false, and_false, not_false_eq_true,
      and_true]
  · unfold Page.classListContains Dropdown.measuredRect Dropdown.remeasuredRect
    rw [decide_eq_true_iff,
      Dropdown.openMenu_of_not_expanded w d _ (Dropdown.isExpanded_dismiss d p),
      Dropdown.mem_classList_handleOverflow, Dropdown.mem_classList_anchorStep,
      Page.classList_setAriaExpanded]
    simp only [htop, hne2, false_or, true_and, false_and, and_true]

/-- Witness of C9: the second demo dropdown is expanded and carries `dropdown-menu-end`;
after `dismiss` the class is gone.  The first demo dropdown, expanded and without
preference, measured at `left = 2^-60`, `width = 800` in a viewport 800 wide, does not carry
`dropdown-menu-end` after `dismiss` and `open`: the computed sum is `800`. -/
theorem dismiss_clears_placement_witness :
    demoDropdown2.isExpanded demoPage = true ∧
    demoPage.classListContains 3 "dropdown-menu-end" = true ∧
    (demoDropdown2.dismiss demoPage).classListContains 3 "dropdown-menu-end" = false ∧
    demoDropdown.isExpanded (demoPage.setAriaExpanded 1 true) = true ∧
    (demoDropdown.openMenu demoRoundingWindow
      (demoDropdown.dismiss (demoPage.setAriaExpanded 1 true))).classListContains 1
        "dropdown-menu-end" = false :=
  ⟨by decide, by decide,
    (dismiss_clears_placement demoWindow demoDropdown2 demoPage (by decide)).2.1,
    by decide,
    by
      have h := (dismiss_clears_placement demoRoundingWindow demoDropdown
        (demoPage.setAriaExpanded 1 true) (by decide)).2.2.2.1
      rw [Bool.eq_false_iff]
      intro hc
      rcases h.mp hc with h1 | h1 | h1
      · change (1 / 2 ^ 60 : ℚ) < 0 at h1
        norm_num at h1
      · change (if (1 / 2 ^ 60 : ℚ) = 1 / 2 ^ 60 ∧ (800 : ℚ) = 800 then (800 : ℚ)
          else 1 / 2 ^ 60 + 800) > 800 at h1
        norm_num at h1
      · exact absurd h1 (by decide)⟩

/-- C10: on every page reachable from the page `p0` of registration, `open` on a registered
dropdown that is not expanded leaves the menu with `dropdown-menu-end` exactly when the
measured box starts left of the viewport (`left < 0`), or the sum `left + width` as the
script computes it (`w.add`) is above `innerWidth`, or the preference is `end`; the
preference is the presence of the class on `p0`, whatever `dismiss` removed since. -/
theorem trailing_edge_placement (p0 p : Page)
    (hreach : Reachable (registerDropdowns p0) p0 p) (w : Window) (d : Dropdown)
    (hd : d ∈ registerDropdowns p0) (hclosed : d.isExpanded p = false) :
    ((d.openMenu w p).classListContains d.menu "dropdown-menu-end" = true ↔
      ((d.measuredRect w p).left < 0 ∨
        w.add (d.measuredRect w p).left (d.measuredRect w p).width > w.innerWidth ∨
        d.menuPlacement.end_ = true)) ∧
    d.menuPlacement.end_ = p0.classListContains d.menu "dropdown-menu-end" := by
  have hpref : d.menuPlacement.end_ = p0.classListContains d.menu "dropdown-menu-end" := by
    have h := registerDropdowns_new p0 d hd
    rw [h]
    rfl
  have hinv := EndClassStatic.of_reachable (registerDropdowns p0) p0 p hreach d.menu
    (by
      intro hcon
      unfold Dropdown.isExpanded at hclosed
      rw [decide_eq_false_iff_not] at hclosed
      exact hclosed hcon)
  have hne : ¬ ("dropdown-menu-end" = "dropdown-menu-top") := by decide
  refine ⟨?_, hpref⟩
  unfold Page.classListContains Dropdown.measuredRect
  rw [decide_eq_true_iff, Dropdown.openMenu_of_not_expanded w d p hclosed,
    Dropdown.mem_classList_handleOverflow, Dropdown.mem_classList_anchorStep,
    Page.classList_setAriaExpanded]
  simp only [hne, true_and, false_and, or_false, and_false, not_false_eq_true, and_true]
  constructor
  · rintro (h | h)
    · right; right
      rw [hpref]
      unfold Page.classListContains
      rw [decide_eq_true_iff]
      exact hinv h
    · exact h
  · intro h
    exact Or.inr h

/-- Witness of C10: the second demo dropdown was registered with `dropdown-menu-end`; after
`dismiss`, which removes the class, an `open` inside a wide viewport adds it again.  The
first demo dropdown, registered without the class and measured at `left = 2^-60`,
`width = 800` in a viewport 800 wide, does not carry it after `open`: the computed sum is
`800`. -/
theorem trailing_edge_placement_witness :
    demoDropdown2 ∈ registerDropdowns demoPage ∧
    demoDropdown2.isExpanded (demoDropdown2.dismiss demoPage) = false ∧
    (demoDropdown2.dismiss demoPage).classListContains 3 "dropdown-menu-end" = false ∧
    demoDropdown2.menuPlacement.end_ = true ∧
    (demoDropdown2.openMenu demoWindow (demoDropdown2.dismiss demoPage)).classListContains 3
      "dropdown-menu-end" = true ∧
    demoDropdown ∈ registerDropdowns demoPage ∧
    demoDropdown.isExpanded demoPage = false ∧
    (demoDropdown.openMenu demoRoundingWindow demoPage).classListContains 1
      "dropdown-menu-end" = false :=
  ⟨by decide, by decide, by decide, by decide,
    (trailing_edge_placement demoPage (demoDropdown2.dismiss demoPage)
      (Reachable.step demoPage _ Reachable.init
        (Step.dismiss demoDropdown2 demoPage (by decide)))
      demoWindow demoDropdown2 (by decide) (by decide)).1.mpr (Or.inr (Or.inr rfl)),
    by decide, by decide,
    by
      have h := (trailing_edge_placement demoPage demoPage Reachable.init
        demoRoundingWindow demoDropdown (by decide) (by decide)).1
      rw [Bool.eq_false_iff]
      intro hc
      rcases h.mp hc with h1 | h1 | h1
      · change (1 / 2 ^ 60 : ℚ) < 0 at h1
        norm_num at h1
      · change (if (1 / 2 ^ 60 : ℚ) = 1 / 2 ^ 60 ∧ (800 : ℚ) = 800 then (800 : ℚ)
          else 1 / 2 ^ 60 + 800) > 800 at h1
        norm_num at h1
      · exact absurd h1 (by decide)⟩

/-! ## Keys on the toggle -/

/-- C11: on a dropdown with a non-empty item array, `toggleKeyHandler` on `Enter`, `Space`
or `Down` calls `preventDefault`, leaves the menu expanded and focuses the first item; on
`Up` it calls `preventDefault`, leaves the menu expanded and focuses the last item; on
`Escape` it leaves the menu not expanded, focuses the toggle and does not call
`preventDefault`. -/
theorem toggle_keyboard_contract (w : Window) (d : Dropdown) (e : KeyboardEvent) (p : Page)
    (hne : d.menuItems p ≠ []) :
    ((e.keyCode = ENTER ∨ e.keyCode = SPACE ∨ e.keyCode = DOWN) →
      d.toggleKeyHandler w e p =
        some (e.preventDefault, (d.openMenu w p).focus ((d.menuItems p).head hne)) ∧
      e.preventDefault.defaultPrevented = true ∧
      d.isExpanded ((d.openMenu w p).focus ((d.menuItems p).head hne)) = true ∧
      ((d.openMenu w p).focus ((d.menuItems p).head hne)).activeElement =
        some ((d.menuItems p).head hne)) ∧
    (e.keyCode = UP →
      d.toggleKeyHandler w e p =
        some (e.preventDefault, (d.openMenu w p).focus ((d.menuItems p).getLast hne)) ∧
      e.preventDefault.defaultPrevented = true ∧
      d.isExpanded ((d.openMenu w p).focus ((d.menuItems p).getLast hne)) = true ∧
      ((d.openMenu w p).focus ((d.menuItems p).getLast hne)).activeElement =
        some ((d.menuItems p).getLast hne)) ∧
    (e.keyCode = ESCAPE →
      d.toggleKeyHandler w e p = some (e, (d.dismiss p).focus d.toggle) ∧
      d.isExpanded ((d.dismiss p).focus d.toggle) = false ∧
      ((d.dismiss p).focus d.toggle).activeElement = some d.toggle) := by
  refine ⟨?_, ?_, ?_⟩
  · intro hkey
    refine ⟨Dropdown.toggleKeyHandler_open_first w d e p hne hkey, rfl, ?_, rfl⟩
    rw [Dropdown.isExpanded_focus]
    exact Dropdown.isExpanded_openMenu w d p
  · intro hkey
    refine ⟨Dropdown.toggleKeyHandler_open_last w d e p hne hkey, rfl, ?_, rfl⟩
    rw [Dropdown.isExpanded_focus]
    exact Dropdown.isExpanded_openMenu w d p
  · intro hkey
    refine ⟨Dropdown.toggleKeyHandler_escape w d e p hkey, ?_, rfl⟩
    rw [Dropdown.isExpanded_focus]
    exact Dropdown.isExpanded_dismiss d p

/-- Witness of C11: `Enter` on the toggle of the first demo dropdown, which is not
expanded, prevents the default, opens it and focuses its first item `10`; `Escape` on the
toggle of the second one dismisses it and focuses the toggle `2`. -/
theorem toggle_keyboard_contract_witness :
    demoDropdown.menuItems demoPage ≠ [] ∧
    demoDropdown.toggleKeyHandler demoWindow
        { keyCode := ENTER, shiftKey := false, target := 0, defaultPrevented := false }
        demoPage =
      some ({ keyCode := ENTER, shiftKey := false, target := 0, defaultPrevented := true },
        (demoDropdown.openMenu demoWindow demoPage).focus 10) ∧
    demoDropdown2.toggleKeyHandler demoWindow
        { keyCode := ESCAPE, shiftKey := false, target := 2, defaultPrevented := false }
        demoPage =
      some ({ keyCode := ESCAPE, shiftKey := false, target := 2, defaultPrevented := false },
        (demoDropdown2.dismiss demoPage).focus 2) :=
  ⟨by decide,
    ((toggle_keyboard_contract demoWindow demoDropdown
      { keyCode := ENTER, shiftKey := false, target := 0, defaultPrevented := false }
      demoPage (by decide)).1 (Or.inl rfl)).1,
    ((toggle_keyboard_contract demoWindow demoDropdown2
      { keyCode := ESCAPE, shiftKey := false, target := 2, defaultPrevented := false }
      demoPage (by decide)).2.2 rfl).1⟩

/-! ## The empty menu -/

/-- C12: on a dropdown whose menu holds no menu item, `focusNextMenuItem` and
`focusPreviousMenuItem` return, for every `currentItem`, the page they were given: focus,
attributes and classes are as before and the item array is not indexed. -/
theorem empty_menu_navigation_noop (d : Dropdown) (p : Page) (currentItem : Option Nat)
    (hempty : d.menuItems p = []) :
    d.focusNextMenuItem currentItem p = some p ∧
    d.focusPreviousMenuItem currentItem p = some p := by
  have hlen : (d.menuItems p).length = 0 := by rw [hempty]; rfl
  constructor
  · unfold Dropdown.focusNextMenuItem
    rw [if_pos hlen]
  · unfold Dropdown.focusPreviousMenuItem
    rw [if_pos hlen]

/-- Witness of C12: the menu `5` of the demo page holds no item; next from the element
`10` and previous with no current item return the demo page. -/
theorem empty_menu_navigation_noop_witness :
    demoEmptyDropdown.menuItems demoPage = [] ∧
    demoEmptyDropdown.focusNextMenuItem (some 10) demoPage = some demoPage ∧
    demoEmptyDropdown.focusPreviousMenuItem none demoPage = some demoPage :=
  ⟨by decide,
    (empty_menu_navigation_noop demoEmptyDropdown demoPage (some 10) (by decide)).1,
    (empty_menu_navigation_noop demoEmptyDropdown demoPage none (by decide)).2⟩

/-! ## One dropdown open after a click -/

/-- C13: when at most one registered toggle contains the click target, then after the click
handler of that toggle (if there is one) and the page-wide sweep, every expanded registered
dropdown is the one whose toggle contains the target, so at most one is expanded; when no
toggle contains the target none is expanded.  A run of `toggleKeyHandler` leaves the
menus of the other dropdowns as they are: the keyboard performs no sweep. -/
theorem at_most_one_open_after_click (w : Window) (dropdowns : List Dropdown) (target : Nat)
    (p : Page)
    (huniq : ∀ d ∈ dropdowns, ∀ d2 ∈ dropdowns, p.contains d.toggle target = true →
      p.contains d2.toggle target = true → d = d2) :
    (∀ d0 ∈ dropdowns, p.contains d0.toggle target = true →
      (∀ d ∈ dropdowns,
        d.isExpanded (documentClick dropdowns target (d0.clickHandler w p)) = true → d = d0) ∧
      (∀ d ∈ dropdowns, ∀ d2 ∈ dropdowns,
        d.isExpanded (documentClick dropdowns target (d0.clickHandler w p)) = true →
        d2.isExpanded (documentClick dropdowns target (d0.clickHandler w p)) = true →
        d = d2)) ∧
    ((∀ d ∈ dropdowns, p.contains d.toggle target = false) →
      ∀ d ∈ dropdowns, d.isExpanded (documentClick dropdowns target p) = false) ∧
    (∀ (d d2 : Dropdown) (e e2 : KeyboardEvent) (q : Page), d2.menu ≠ d.menu →
      d.toggleKeyHandler w e p = some (e2, q) → d2.isExpanded q = d2.isExpanded p) := by
  have hone : ∀ d0 ∈ dropdowns, p.contains d0.toggle target = true → ∀ d ∈ dropdowns,
      d.isExpanded (documentClick dropdowns target (d0.clickHandler w p)) = true →
      d = d0 := by
    intro d0 hd0 hin d hd hexp
    by_cases hc : p.contains d.toggle target = true
    · exact huniq d hd d0 hd0 hc hin
    · exfalso
      have hout : (d0.clickHandler w p).contains d.toggle target = false := by
        rw [Dropdown.contains_clickHandler]
        simpa using hc
      have := documentClick_dismisses d target dropdowns _ hd hout
      rw [this] at hexp
      cases hexp
  refine ⟨?_, ?_, ?_⟩
  · intro d0 hd0 hin
    refine ⟨hone d0 hd0 hin, ?_⟩
    intro d hd d2 hd2 h1 h2
    rw [hone d0 hd0 hin d hd h1, hone d0 hd0 hin d2 hd2 h2]
  · intro hnone d hd
    exact documentClick_dismisses d target dropdowns p hd (hnone d hd)
  · intro d d2 e e2 q hne h
    unfold Dropdown.isExpanded Page.getAriaExpanded
    rw [Dropdown.toggleKeyHandler_elems_of_ne w d e e2 p q h d2.menu hne]

/-- Witness of C13: on the demo page, where the second dropdown is expanded, a click on
element `0`, the toggle of the first one only, leaves the first one as the only expanded
dropdown. -/
theorem at_most_one_open_after_click_witness :
    (∀ d ∈ [demoDropdown, demoDropdown2], ∀ d2 ∈ [demoDropdown, demoDropdown2],
      demoPage.contains d.toggle 0 = true → demoPage.contains d2.toggle 0 = true → d = d2) ∧
    demoDropdown2.isExpanded demoPage = true ∧
    demoDropdown.isExpanded (documentClick [demoDropdown, demoDropdown2] 0
      (demoDropdown.clickHandler demoWindow demoPage)) = true ∧
    (demoDropdown2.isExpanded (documentClick [demoDropdown, demoDropdown2] 0
        (demoDropdown.clickHandler demoWindow demoPage)) = true →
      demoDropdown2 = demoDropdown) :=
  ⟨by decide, by decide,
    by
      have hmenu : (documentClick [demoDropdown, demoDropdown2] 0
          (demoDropdown.clickHandler demoWindow demoPage)).elems demoDropdown.menu =
          (demoDropdown.clickHandler demoWindow demoPage).elems demoDropdown.menu := by
        apply documentClick_elems
        rw [Dropdown.contains_clickHandler]
        decide
      unfold Dropdown.isExpanded Page.getAriaExpanded
      rw [hmenu]
      exact (Dropdown.isExpanded_clickHandler demoWindow demoDropdown demoPage).trans
        (by decide),
    ((at_most_one_open_after_click demoWindow [demoDropdown, demoDropdown2] 0 demoPage
      (by decide)).1 demoDropdown (by decide) (by decide)).1 demoDropdown2 (by decide)⟩

end Script
